import Mathlib

/-!
# Focus Cost Tracker: session time accounting

A shallow embedding of `src/extension/background.js` (with the helper
`getDomainFromUrl` of `src/extension/utils.js`) and theorems about it.

Modelling conventions.

* The service worker's globals (`sessionState`, `tickerInterval`,
  `previousWasAllowed`) together with the single storage key written by
  `saveSessionState` and the `chrome.tabs.update` calls issued so far form a
  `World`; every function of the source is a function `World → World`.
* A function named after a listener or command of the source is that handler
  run from its dispatch to its end with no other handler in between. The
  handlers are `async`, and the source does not keep a second handler from
  starting while a first one is suspended in an `await`; where that matters
  the handler is also given in segments, one per stretch between two
  suspensions (`stopSessionBegin`, `stopSessionResume`,
  `getSessionStateBegin`, `getSessionStateResume`, `onFocusChangedBegin`,
  `onFocusChangedResume`).
* Every call of `safeNowMs()` is an explicit argument, in the order in which the
  calls happen inside the function; a listener that fires at one event time
  `now` receives `now` for each of them.
* What the browser answers (`chrome.tabs.get`, `chrome.tabs.query`,
  `chrome.windows.getCurrent`, `chrome.idle.queryState`,
  `chrome.runtime.getURL`, the `URL` constructor) is the record `Chrome`.
* Timestamps and durations are integers (`Date.now()` yields integral
  milliseconds, and sums and differences of integers below `2^53` are exact in
  JavaScript numbers); tab identifiers are integers; `null` and `undefined` are
  `none`.
-/

namespace FocusCostTracker

/-- A tab identifier as delivered by the `chrome.tabs` API. -/
abbrev TabId := Int

/-- The values of `chrome.idle.IdleState`. -/
inductive IdleState where
  | active
  | idle
  | locked
  deriving DecidableEq, Repr

/-- The record stored in `lastSessionSummary` by `stopSession`. -/
structure SessionSummary where
  durationMs : Int
  awayTimeMs : Int
  focusedTimeMs : Int
  switchCount : Nat
  endedAtMs : Int
  deriving DecidableEq, Repr

/-- The object `sessionState`. The field `primaryUrl` is not part of
`DEFAULT_STATE` in the source; it is created by the first assignment, and its
absence (`undefined`) is `none` here. -/
structure SessionState where
  isRunning : Bool
  startTimeMs : Option Int
  lastTickMs : Option Int
  primaryTabId : Option TabId
  primaryUrl : Option String
  primaryDomain : Option String
  primaryTitle : Option String
  allowedTabIds : List TabId
  allowedDomains : List String
  activeTabId : Option TabId
  activeDomain : Option String
  switchCount : Nat
  awayTimeMs : Int
  chromeFocused : Bool
  idleState : IdleState
  lockEnabled : Bool
  lastSessionSummary : Option SessionSummary
  deriving DecidableEq, Repr

/-- The constant `DEFAULT_STATE`. -/
def DEFAULT_STATE : SessionState :=
  { isRunning := false
    startTimeMs := none
    lastTickMs := none
    primaryTabId := none
    primaryUrl := none
    primaryDomain := none
    primaryTitle := none
    allowedTabIds := []
    allowedDomains := []
    activeTabId := none
    activeDomain := none
    switchCount := 0
    awayTimeMs := 0
    chromeFocused := true
    idleState := IdleState.active
    lockEnabled := false
    lastSessionSummary := none }

/-- A tab object of the `chrome.tabs` API, restricted to the properties the
source reads. -/
structure Tab where
  id : TabId
  url : Option String
  title : Option String
  deriving DecidableEq, Repr

/-- The answers of the browser during one listener invocation. -/
structure Chrome where
  /-- The result of `chrome.tabs.get(tabId)`; `none` when the promise rejects. -/
  tabsGet : TabId → Option Tab
  /-- The result of `chrome.tabs.query` for the active tab of the current window. -/
  tabsQueryActive : List Tab
  /-- The `focused` property of `chrome.windows.getCurrent()`. -/
  windowFocused : Bool
  /-- The result of `chrome.idle.queryState(60)`. -/
  idleQueryState : IdleState
  /-- The function `chrome.runtime.getURL`. -/
  getURL : String → String
  /-- The `hostname` of `new URL(url)`; `none` when the constructor throws. -/
  hostname : String → Option String

/-- The mutable globals of the service worker, the storage key `sessionState`
of `chrome.storage.local`, and the log of `chrome.tabs.update(tabId, {url})`
calls issued. -/
structure World where
  sessionState : SessionState
  tickerInterval : Bool
  previousWasAllowed : Bool
  storage : Option SessionState
  redirects : List (TabId × String)

/-- The globals as initialised when the script is evaluated, over empty storage. -/
def initialWorld : World :=
  { sessionState := DEFAULT_STATE
    tickerInterval := false
    previousWasAllowed := false
    storage := none
    redirects := [] }

/-- The constant `chrome.windows.WINDOW_ID_NONE`. -/
def WINDOW_ID_NONE : Int := -1

/-- JavaScript truthiness of a nullable number. -/
def truthyNum (x : Option Int) : Bool :=
  match x with
  | some n => decide (n ≠ 0)
  | none => false

/-- JavaScript truthiness of a nullable string. -/
def truthyStr (x : Option String) : Bool :=
  match x with
  | some s => decide (s ≠ "")
  | none => false

/-- The method `Array.prototype.includes` applied to a nullable argument on an
array without `null` entries. -/
def arrayIncludes {α : Type} [DecidableEq α] (xs : List α) (x : Option α) : Bool :=
  match x with
  | some a => decide (a ∈ xs)
  | none => false

/-- The method `String.prototype.startsWith`. -/
def startsWith (s p : String) : Bool :=
  p.toList.isPrefixOf s.toList

/-- The method `String.prototype.includes`. -/
def stringIncludes (s p : String) : Bool :=
  s.toList.tails.any (fun t => p.toList.isPrefixOf t)

/-- The function `getDomainFromUrl` of `utils.js`. -/
def getDomainFromUrl (env : Chrome) (url : Option String) : String :=
  if !truthyStr url then ""
  else
    match url with
    | none => ""
    | some u =>
      match env.hostname u with
      | some h => h
      | none => ""

/-- The function `saveSessionState`. -/
def saveSessionState (w : World) : World :=
  { w with storage := some w.sessionState }

/-- The function `isTabAllowed`. -/
def isTabAllowed (w : World) (tabId : Option TabId) (domain : Option String) : Bool :=
  if truthyNum tabId && arrayIncludes w.sessionState.allowedTabIds tabId then true
  else if truthyStr domain && arrayIncludes w.sessionState.allowedDomains domain then true
  else false

/-- The function `isFocusedState`. -/
def isFocusedState (w : World) : Bool :=
  w.sessionState.isRunning &&
  w.sessionState.chromeFocused &&
  decide (w.sessionState.idleState = IdleState.active) &&
  isTabAllowed w w.sessionState.activeTabId w.sessionState.activeDomain

/-- The function `updateTime`; `nowMs` is the value of its `safeNowMs()` call. -/
def updateTime (nowMs : Int) (w : World) : World :=
  match w.sessionState.isRunning, w.sessionState.lastTickMs with
  | true, some lastTickMs =>
    let delta := nowMs - lastTickMs
    let w1 : World :=
      if !isFocusedState w then
        { w with sessionState :=
            { w.sessionState with awayTimeMs := w.sessionState.awayTimeMs + delta } }
      else w
    saveSessionState
      { w1 with sessionState := { w1.sessionState with lastTickMs := some nowMs } }
  | _, _ => w

/-- The function `startTicker`. -/
def startTicker (w : World) : World :=
  if w.tickerInterval then w else { w with tickerInterval := true }

/-- The function `stopTicker`. -/
def stopTicker (w : World) : World :=
  if w.tickerInterval then { w with tickerInterval := false } else w

/-- The callback of the interval armed by `startTicker`. -/
def onTick (nowMs : Int) (w : World) : World :=
  updateTime nowMs w

/-- The function `updateActiveTab`. -/
def updateActiveTab (env : Chrome) (tabId : TabId) (w : World) : World :=
  let w1 : World :=
    { w with sessionState := { w.sessionState with activeTabId := some tabId } }
  if truthyNum (some tabId) then
    match env.tabsGet tabId with
    | some tab =>
      { w1 with sessionState :=
          { w1.sessionState with activeDomain := some (getDomainFromUrl env tab.url) } }
    | none =>
      { w1 with sessionState := { w1.sessionState with activeDomain := none } }
  else
    { w1 with sessionState := { w1.sessionState with activeDomain := none } }

/-- The function `enforceFocusLock`. -/
def enforceFocusLock (env : Chrome) (tabId : TabId) (w : World) : World :=
  if !w.sessionState.isRunning || !w.sessionState.lockEnabled then w
  else
    match env.tabsGet tabId with
    | none => w
    | some tab =>
      if !truthyStr tab.url then w
      else
        match tab.url with
        | none => w
        | some url =>
          if startsWith url "chrome://" || startsWith url "chrome-extension://" then w
          else
            let tabDomain := getDomainFromUrl env (some url)
            let allowed := isTabAllowed w (some tabId) (some tabDomain)
            if !allowed then
              let lockedUrl := env.getURL "locked.html"
              if !stringIncludes url "locked.html" then
                { w with redirects := w.redirects ++ [(tabId, lockedUrl)] }
              else w
            else w

/-- The listener of `chrome.tabs.onActivated`; `t1` is the clock read by
`updateTime`, `t2` the one stamped into `lastTickMs`. -/
def onActivated (t1 t2 : Int) (env : Chrome) (tabId : TabId) (w : World) : World :=
  let w1 := if w.sessionState.isRunning then updateTime t1 w else w
  let previousTabId := w1.sessionState.activeTabId
  let previousDomain := w1.sessionState.activeDomain
  let w2 := updateActiveTab env tabId w1
  if w2.sessionState.isRunning then
    let previousAllowed := isTabAllowed w2 previousTabId previousDomain
    let currentAllowed :=
      isTabAllowed w2 w2.sessionState.activeTabId w2.sessionState.activeDomain
    let w3 : World :=
      if previousTabId.isSome && (previousAllowed != currentAllowed) then
        { w2 with sessionState :=
            { w2.sessionState with switchCount := w2.sessionState.switchCount + 1 } }
      else w2
    let w4 := saveSessionState
      { w3 with sessionState := { w3.sessionState with lastTickMs := some t2 } }
    if w4.sessionState.lockEnabled then enforceFocusLock env tabId w4 else w4
  else w2

/-- The `changeInfo` argument of `chrome.tabs.onUpdated`, restricted to the
properties the source reads. -/
structure ChangeInfo where
  url : Option String
  title : Option String
  deriving DecidableEq, Repr

/-- The listener of `chrome.tabs.onUpdated`. -/
def onUpdated (env : Chrome) (tabId : TabId) (changeInfo : ChangeInfo) (w : World) : World :=
  let w2 : World :=
    if w.sessionState.primaryTabId = some tabId then
      let w1 : World :=
        if truthyStr changeInfo.url && decide (changeInfo.url ≠ w.sessionState.primaryUrl) then
          saveSessionState
            { w with sessionState :=
                { w.sessionState with
                  primaryUrl := changeInfo.url
                  primaryDomain := some (getDomainFromUrl env changeInfo.url) } }
        else w
      if truthyStr changeInfo.title &&
          decide (changeInfo.title ≠ w1.sessionState.primaryTitle) then
        saveSessionState
          { w1 with sessionState := { w1.sessionState with primaryTitle := changeInfo.title } }
      else w1
    else w
  let w3 : World :=
    if decide (w2.sessionState.activeTabId = some tabId) && truthyStr changeInfo.url then
      saveSessionState
        { w2 with sessionState :=
            { w2.sessionState with activeDomain := some (getDomainFromUrl env changeInfo.url) } }
    else w2
  if w3.sessionState.isRunning && w3.sessionState.lockEnabled &&
      truthyStr changeInfo.url && decide (w3.sessionState.activeTabId = some tabId) then
    enforceFocusLock env tabId w3
  else w3

/-- The listener of `chrome.tabs.onRemoved`; `t1` is the clock read by
`updateTime`, `t2` the one stamped into `lastTickMs`. -/
def onRemoved (t1 t2 : Int) (tabId : TabId) (w : World) : World :=
  let w1 : World :=
    if arrayIncludes w.sessionState.allowedTabIds (some tabId) then
      { w with sessionState :=
          { w.sessionState with
            allowedTabIds := w.sessionState.allowedTabIds.filter (fun id => decide (id ≠ tabId)) } }
    else w
  let w3 : World :=
    if w1.sessionState.primaryTabId = some tabId then
      let w2 := if w1.sessionState.isRunning then updateTime t1 w1 else w1
      { w2 with sessionState :=
          { w2.sessionState with
            primaryTabId := none
            primaryUrl := none
            primaryDomain := none
            primaryTitle := none } }
    else w1
  let w4 : World :=
    if w3.sessionState.activeTabId = some tabId then
      { w3 with sessionState :=
          { w3.sessionState with activeTabId := none, activeDomain := none } }
    else w3
  let w5 : World :=
    if w4.sessionState.isRunning then
      { w4 with sessionState := { w4.sessionState with lastTickMs := some t2 } }
    else w4
  saveSessionState w5

/-- The listener of `chrome.windows.onFocusChanged`; `t1` is the clock read by
`updateTime`, `t2` the one stamped into `lastTickMs`. -/
def onFocusChanged (t1 t2 : Int) (windowId : Int) (w : World) : World :=
  let w1 := if w.sessionState.isRunning then updateTime t1 w else w
  let w2 : World :=
    { w1 with sessionState :=
        { w1.sessionState with chromeFocused := decide (windowId ≠ WINDOW_ID_NONE) } }
  if w2.sessionState.isRunning then
    saveSessionState
      { w2 with sessionState := { w2.sessionState with lastTickMs := some t2 } }
  else w2

/-- The listener of `chrome.idle.onStateChanged`; `t1` is the clock read by
`updateTime`, `t2` the one stamped into `lastTickMs`. -/
def onStateChanged (t1 t2 : Int) (newState : IdleState) (w : World) : World :=
  let w1 := if w.sessionState.isRunning then updateTime t1 w else w
  let w2 : World :=
    { w1 with sessionState := { w1.sessionState with idleState := newState } }
  if w2.sessionState.isRunning then
    saveSessionState
      { w2 with sessionState := { w2.sessionState with lastTickMs := some t2 } }
  else w2

/-- The function `setPrimaryToCurrentTab`. -/
def setPrimaryToCurrentTab (env : Chrome) (w : World) : World :=
  match env.tabsQueryActive with
  | [] => w
  | tab :: _ =>
    let w1 : World :=
      { w with sessionState :=
          { w.sessionState with
            primaryTabId := some tab.id
            primaryUrl := tab.url
            primaryDomain := some (getDomainFromUrl env tab.url)
            primaryTitle := tab.title } }
    let w2 : World :=
      if !arrayIncludes w1.sessionState.allowedTabIds (some tab.id) then
        { w1 with sessionState :=
            { w1.sessionState with allowedTabIds := w1.sessionState.allowedTabIds ++ [tab.id] } }
      else w1
    saveSessionState w2

/-- The function `startSession`; `nowMs` is the value of its `safeNowMs()` call. -/
def startSession (nowMs : Int) (env : Chrome) (w : World) : World :=
  if w.sessionState.isRunning then w
  else
    let w1 : World :=
      { w with sessionState :=
          { w.sessionState with
            isRunning := true
            startTimeMs := some nowMs
            lastTickMs := some nowMs
            switchCount := 0
            awayTimeMs := 0 } }
    let w2 : World :=
      match env.tabsQueryActive with
      | tab :: _ => updateActiveTab env tab.id w1
      | [] => w1
    let w3 : World :=
      { w2 with sessionState := { w2.sessionState with chromeFocused := env.windowFocused } }
    let w4 : World :=
      { w3 with sessionState := { w3.sessionState with idleState := env.idleQueryState } }
    let w5 : World :=
      { w4 with previousWasAllowed :=
          isTabAllowed w4 w4.sessionState.activeTabId w4.sessionState.activeDomain }
    startTicker (saveSessionState w5)

/-- JavaScript `ToNumber` of a nullable number, as applied by the binary `-`. -/
def toNumber (x : Option Int) : Int :=
  match x with
  | some n => n
  | none => 0

/-- The function `stopSession`; `t1` is the clock read by `updateTime`, `t2`
the one read for `durationMs`, `t3` the one read for `endedAtMs`. -/
def stopSession (t1 t2 t3 : Int) (w : World) : World :=
  if !w.sessionState.isRunning then w
  else
    let w1 := updateTime t1 (stopTicker w)
    let durationMs := t2 - toNumber w1.sessionState.startTimeMs
    let focusedTimeMs := max 0 (durationMs - w1.sessionState.awayTimeMs)
    let summary : SessionSummary :=
      { durationMs := durationMs
        awayTimeMs := w1.sessionState.awayTimeMs
        focusedTimeMs := focusedTimeMs
        switchCount := w1.sessionState.switchCount
        endedAtMs := t3 }
    saveSessionState
      { w1 with sessionState :=
          { w1.sessionState with
            lastSessionSummary := some summary
            isRunning := false
            startTimeMs := none
            lastTickMs := none
            switchCount := 0
            awayTimeMs := 0
            activeTabId := none
            activeDomain := none
            idleState := IdleState.active } }

/-- The function `addAllowedTab`. -/
def addAllowedTab (tabId : TabId) (w : World) : World :=
  if !arrayIncludes w.sessionState.allowedTabIds (some tabId) then
    saveSessionState
      { w with sessionState :=
          { w.sessionState with allowedTabIds := w.sessionState.allowedTabIds ++ [tabId] } }
  else w

/-- The function `removeAllowedTab`. -/
def removeAllowedTab (tabId : TabId) (w : World) : World :=
  saveSessionState
    { w with sessionState :=
        { w.sessionState with
          allowedTabIds := w.sessionState.allowedTabIds.filter (fun id => decide (id ≠ tabId)) } }

/-- The function `addAllowedDomain`. -/
def addAllowedDomain (domain : String) (w : World) : World :=
  if !arrayIncludes w.sessionState.allowedDomains (some domain) then
    saveSessionState
      { w with sessionState :=
          { w.sessionState with allowedDomains := w.sessionState.allowedDomains ++ [domain] } }
  else w

/-- The function `removeAllowedDomain`. -/
def removeAllowedDomain (domain : String) (w : World) : World :=
  saveSessionState
    { w with sessionState :=
        { w.sessionState with
          allowedDomains := w.sessionState.allowedDomains.filter (fun d => decide (d ≠ domain)) } }

/-- The function `loadSessionState`; `nowMs` is the value of its `safeNowMs()`
call. A stored snapshot carries every field, so the spread over
`DEFAULT_STATE` is the snapshot itself. -/
def loadSessionState (nowMs : Int) (w : World) : World :=
  match w.storage with
  | some stored =>
    let w1 : World := { w with sessionState := stored }
    if w1.sessionState.isRunning then
      let w2 := saveSessionState
        { w1 with sessionState := { w1.sessionState with lastTickMs := some nowMs } }
      let w3 := startTicker w2
      { w3 with previousWasAllowed :=
          isTabAllowed w3 w3.sessionState.activeTabId w3.sessionState.activeDomain }
    else w1
  | none => w

/-- The messages dispatched on by `handleMessage`, by their `action`. -/
inductive Message where
  | setPrimaryToCurrentTab
  | startSession
  | stopSession
  | getSessionState
  | setLockEnabled (enabled : Bool)
  | addAllowedTab (tabId : TabId)
  | removeAllowedTab (tabId : TabId)
  | addAllowedDomain (domain : String)
  | removeAllowedDomain (domain : String)
  | isLockedPage
  | unknown (action : String)
  deriving DecidableEq, Repr

/-- The argument passed to `sendResponse`. -/
inductive Response where
  | state (success : Bool) (state : SessionState)
  | isLocked (success : Bool) (isLocked : Bool)
  | error (success : Bool) (error : String)
  deriving DecidableEq, Repr

/-- The state change performed by `handleMessage`; `t1`, `t2`, `t3` are the
values of the `safeNowMs()` calls of the selected case, in order. -/
def handleMessage (t1 t2 t3 : Int) (env : Chrome) (message : Message) (w : World) : World :=
  match message with
  | Message.setPrimaryToCurrentTab => setPrimaryToCurrentTab env w
  | Message.startSession => startSession t1 env w
  | Message.stopSession => stopSession t1 t2 t3 w
  | Message.getSessionState =>
    if w.sessionState.isRunning then
      let w1 := updateTime t1 w
      saveSessionState
        { w1 with sessionState := { w1.sessionState with lastTickMs := some t2 } }
    else w
  | Message.setLockEnabled enabled =>
    saveSessionState { w with sessionState := { w.sessionState with lockEnabled := enabled } }
  | Message.addAllowedTab tabId => addAllowedTab tabId w
  | Message.removeAllowedTab tabId => removeAllowedTab tabId w
  | Message.addAllowedDomain domain => addAllowedDomain domain w
  | Message.removeAllowedDomain domain => removeAllowedDomain domain w
  | Message.isLockedPage => w
  | Message.unknown _ => w

/-- The value `handleMessage` passes to `sendResponse`. -/
def handleMessageResponse (t1 t2 t3 : Int) (env : Chrome) (message : Message) (w : World) :
    Response :=
  match message with
  | Message.isLockedPage =>
    Response.isLocked true (w.sessionState.isRunning && w.sessionState.lockEnabled)
  | Message.unknown _ => Response.error false "Unknown action"
  | _ => Response.state true (handleMessage t1 t2 t3 env message w).sessionState

/-- The first segment of `stopSession`: the guard, `stopTicker()` and the
synchronous part of `updateTime()`, up to the storage write that
`await updateTime()` waits for; `t1` is the clock read by `updateTime`. When
the guard fails the function has returned and there is nothing to resume. -/
def stopSessionBegin (t1 : Int) (w : World) : World :=
  if !w.sessionState.isRunning then w
  else updateTime t1 (stopTicker w)

/-- The second segment of `stopSession`, run when `await updateTime()` resumes:
it reads `sessionState` as it is at that moment, stores the summary, clears the
session fields and saves; `t2` is the clock read for `durationMs`, `t3` the one
read for `endedAtMs`. -/
def stopSessionResume (t2 t3 : Int) (w : World) : World :=
  let durationMs := t2 - toNumber w.sessionState.startTimeMs
  let focusedTimeMs := max 0 (durationMs - w.sessionState.awayTimeMs)
  let summary : SessionSummary :=
    { durationMs := durationMs
      awayTimeMs := w.sessionState.awayTimeMs
      focusedTimeMs := focusedTimeMs
      switchCount := w.sessionState.switchCount
      endedAtMs := t3 }
  saveSessionState
    { w with sessionState :=
        { w.sessionState with
          lastSessionSummary := some summary
          isRunning := false
          startTimeMs := none
          lastTickMs := none
          switchCount := 0
          awayTimeMs := 0
          activeTabId := none
          activeDomain := none
          idleState := IdleState.active } }

/-- The first segment of the `getSessionState` case of `handleMessage`: the
guard on `isRunning` and the synchronous part of `updateTime()`, up to the
storage write that `await updateTime()` waits for; `t1` is the clock read by
`updateTime`. When the guard fails the case goes on to `sendResponse` and there
is nothing to resume. -/
def getSessionStateBegin (t1 : Int) (w : World) : World :=
  if w.sessionState.isRunning then updateTime t1 w else w

/-- The first segment of the listener of `chrome.windows.onFocusChanged`: the
guard on `isRunning` and the synchronous part of `updateTime()`; `t1` is the
clock read by `updateTime`. -/
def onFocusChangedBegin (t1 : Int) (w : World) : World :=
  if w.sessionState.isRunning then updateTime t1 w else w

/-- The second segment of the listener of `chrome.windows.onFocusChanged`: it
assigns `chromeFocused`, then reads `isRunning` again and only if it is true
stamps `lastTickMs` with the clock reading `t2` and saves. -/
def onFocusChangedResume (t2 : Int) (windowId : Int) (w : World) : World :=
  let w2 : World :=
    { w with sessionState :=
        { w.sessionState with chromeFocused := decide (windowId ≠ WINDOW_ID_NONE) } }
  if w2.sessionState.isRunning then
    saveSessionState
      { w2 with sessionState := { w2.sessionState with lastTickMs := some t2 } }
  else w2

/-- The second segment of the `getSessionState` case, run when
`await updateTime()` resumes inside the guarded block: it stamps `lastTickMs`
with the clock reading `t2` and saves, without reading `isRunning` again. -/
def getSessionStateResume (t2 : Int) (w : World) : World :=
  saveSessionState { w with sessionState := { w.sessionState with lastTickMs := some t2 } }

end FocusCostTracker

/-! ## Auxiliary definitions used in the statements -/

namespace FocusCostTracker

/-- A world used in examples: a running session started at time `1000`, last
accounted at `4000`, whose active tab `7` on `docs.example` is allowed by id. -/
def runningWorld : World :=
  { sessionState :=
      { DEFAULT_STATE with
        isRunning := true
        startTimeMs := some 1000
        lastTickMs := some 4000
        allowedTabIds := [7]
        activeTabId := some 7
        activeDomain := some "docs.example"
        switchCount := 2
        awayTimeMs := 500 }
    tickerInterval := true
    previousWasAllowed := true
    storage := none
    redirects := [] }

/-- A browser used in examples: tab `7` shows `https://docs.example/a`, tab `9`
shows `https://news.example/`, tab `7` is the active tab of a focused window and
the user is active. -/
def exampleChrome : Chrome :=
  { tabsGet := fun tabId =>
      if tabId = 7 then some { id := 7, url := some "https://docs.example/a", title := some "Docs" }
      else if tabId = 9 then some { id := 9, url := some "https://news.example/", title := some "News" }
      else none
    tabsQueryActive := [{ id := 7, url := some "https://docs.example/a", title := some "Docs" }]
    windowFocused := true
    idleQueryState := IdleState.active
    getURL := fun path => "chrome-extension://abcdefgh/" ++ path
    hostname := fun url =>
      if url = "https://docs.example/a" then some "docs.example"
      else if url = "https://news.example/" then some "news.example"
      else none }

/-- The running example world with the window blurred: a running session that
is not focused. -/
def blurredWorld : World :=
  { runningWorld with
    sessionState := { runningWorld.sessionState with chromeFocused := false } }

/-- The running example world in which the active tab `7` is also the primary
tab. -/
def primaryWorld : World :=
  { runningWorld with
    sessionState :=
      { runningWorld.sessionState with
        primaryTabId := some 7
        primaryUrl := some "https://docs.example/a"
        primaryDomain := some "docs.example"
        primaryTitle := some "Docs" } }

/-- The running example world in which the active tab `7` is allowed by its
domain `docs.example` only. -/
def domainWorld : World :=
  { runningWorld with
    sessionState :=
      { runningWorld.sessionState with
        allowedTabIds := []
        allowedDomains := ["docs.example"] } }

/-- The running example world in which the active tab `7` is allowed both by id
and by its domain `docs.example`. -/
def bothAllowedWorld : World :=
  { runningWorld with
    sessionState := { runningWorld.sessionState with allowedDomains := ["docs.example"] } }

/-- The running example world with the focus lock switched on. -/
def lockedWorld : World :=
  { runningWorld with
    sessionState := { runningWorld.sessionState with lockEnabled := true } }

/-- The example browser with two more tabs: tab `11` has not committed a
navigation yet, so its `url` is the empty string, and tab `12` shows the
lock-notice page of the extension. -/
def extendedChrome : Chrome :=
  { exampleChrome with
    tabsGet := fun tabId =>
      if tabId = 11 then some { id := 11, url := some "", title := none }
      else if tabId = 12 then
        some { id := 12, url := some "chrome-extension://abcdefgh/locked.html",
               title := some "Locked" }
      else exampleChrome.tabsGet tabId }

/-- A world of a freshly started service worker whose storage holds the
snapshot of the running example session. -/
def restartedWorld : World :=
  { initialWorld with storage := some runningWorld.sessionState }

/-- The world after the commands `addAllowedTab(7)` and, at `1000`,
`startSession` on the initial world: a running session on the allowed tab `7`. -/
def startedWorld : World :=
  handleMessage 1000 1000 1000 exampleChrome Message.startSession
    (handleMessage 0 0 0 exampleChrome (Message.addAllowedTab 7) initialWorld)

/-- The schedule in which a `getSessionState` command is dispatched while
`stopSession` waits for the storage write of its `updateTime()`: `stopSession`
starts at `9000` and is suspended, `getSessionState` starts at `9001`, passes
its guard and is suspended too, `stopSession` resumes at `9002` and clears the
session, `getSessionState` resumes at `9003`. -/
def racedWorld : World :=
  getSessionStateResume 9003
    (stopSessionResume 9002 9002
      (getSessionStateBegin 9001
        (stopSessionBegin 9000 startedWorld)))

/-- The state `updateTime` leaves behind in a running session whose last tick
is `lt`: the interval `now - lt` is added to `awayTimeMs` unless focused, and
`lastTickMs` is advanced. -/
def accounted (now lt : Int) (w : World) : SessionState :=
  { w.sessionState with
    awayTimeMs :=
      if isFocusedState w then w.sessionState.awayTimeMs
      else w.sessionState.awayTimeMs + (now - lt)
    lastTickMs := some now }

/-- The allowed predicate as a function of the two allow-lists. -/
def allowedIn (tabIds : List TabId) (domains : List String)
    (tabId : Option TabId) (domain : Option String) : Bool :=
  (truthyNum tabId && arrayIncludes tabIds tabId) ||
    (truthyStr domain && arrayIncludes domains domain)

/-- The value `updateActiveTab(tabId)` leaves in `activeDomain`: the domain of
the tab's URL when `tabId` is truthy and the lookup succeeds, `null` otherwise. -/
def resolvedDomain (env : Chrome) (tabId : TabId) : Option String :=
  if tabId ≠ 0 then
    match env.tabsGet tabId with
    | some tab => some (getDomainFromUrl env tab.url)
    | none => none
  else none

/-- The summary `stopSession` computes from the flushed state `s`. -/
def summaryOf (t2 t3 : Int) (s : SessionState) : SessionSummary :=
  { durationMs := t2 - toNumber s.startTimeMs
    awayTimeMs := s.awayTimeMs
    focusedTimeMs := max 0 (t2 - toNumber s.startTimeMs - s.awayTimeMs)
    switchCount := s.switchCount
    endedAtMs := t3 }

/-- The ticker firing at each of the clock readings `ticks`, in order. -/
def runTicks (ticks : List Int) (w : World) : World :=
  ticks.foldl (fun v now => onTick now v) w

/-- One transition of the tracker under run-to-completion scheduling: a command
delivered to `handleMessage`, an environment event delivered to its listener,
or a firing of the ticker, taken from its dispatch to its end with no other
handler in between, with arbitrary clock readings and arbitrary answers of the
browser. A tick is allowed in every world, which covers the firings of the
armed interval. A handler that starts while another one is suspended in an
`await` is not a `Step`; such schedules are built from the segments
`stopSessionBegin`, `stopSessionResume`, `getSessionStateBegin` and
`getSessionStateResume`. -/
inductive Step : World → World → Prop where
  | message (t1 t2 t3 : Int) (env : Chrome) (m : Message) (w : World) :
      Step w (handleMessage t1 t2 t3 env m w)
  | activated (t1 t2 : Int) (env : Chrome) (tabId : TabId) (w : World) :
      Step w (onActivated t1 t2 env tabId w)
  | updated (env : Chrome) (tabId : TabId) (changeInfo : ChangeInfo) (w : World) :
      Step w (onUpdated env tabId changeInfo w)
  | removed (t1 t2 : Int) (tabId : TabId) (w : World) :
      Step w (onRemoved t1 t2 tabId w)
  | focusChanged (t1 t2 : Int) (windowId : Int) (w : World) :
      Step w (onFocusChanged t1 t2 windowId w)
  | stateChanged (t1 t2 : Int) (newState : IdleState) (w : World) :
      Step w (onStateChanged t1 t2 newState w)
  | tick (now : Int) (w : World) :
      Step w (onTick now w)

/-- The worlds reachable from a world whose `sessionState` is `DEFAULT_STATE`
by finitely many transitions, each handler running to completion before the
next one starts. -/
inductive Reachable : World → Prop where
  | init (w : World) (h : w.sessionState = DEFAULT_STATE) : Reachable w
  | step (w v : World) (hw : Reachable w) (hs : Step w v) : Reachable v

/-- The events other than a tab activation that reach a running session: the
window focus changes, the idle state changes, a tab navigates, a tab is
closed, the ticker fires, or a client sends `getSessionState`; each with its
clock readings and the browser's answers. -/
inductive QuietEvent where
  | focusChanged (t1 t2 : Int) (windowId : Int)
  | stateChanged (t1 t2 : Int) (newState : IdleState)
  | updated (env : Chrome) (tabId : TabId) (changeInfo : ChangeInfo)
  | removed (t1 t2 : Int) (tabId : TabId)
  | tick (now : Int)
  | getSessionState (t1 t2 t3 : Int) (env : Chrome)

/-- The listener or command that handles a `QuietEvent`. -/
def applyQuiet (e : QuietEvent) (w : World) : World :=
  match e with
  | QuietEvent.focusChanged t1 t2 windowId => onFocusChanged t1 t2 windowId w
  | QuietEvent.stateChanged t1 t2 newState => onStateChanged t1 t2 newState w
  | QuietEvent.updated env tabId changeInfo => onUpdated env tabId changeInfo w
  | QuietEvent.removed t1 t2 tabId => onRemoved t1 t2 tabId w
  | QuietEvent.tick now => onTick now w
  | QuietEvent.getSessionState t1 t2 t3 env =>
    handleMessage t1 t2 t3 env Message.getSessionState w

/-- The events `events` handled one after the other. -/
def runQuiet (events : List QuietEvent) (w : World) : World :=
  events.foldl (fun v e => applyQuiet e v) w

/-- One transition of the tracker under a clock that never runs backwards:
`TimedStep c w c' w'` says that, the last clock reading so far being `c`, a
command, an environment event or a tick takes `w` to `w'`, reads the clock at
non-decreasing values from `c` on, and leaves `c'` as the last reading. A
listener that does not read the clock leaves it at `c`. -/
inductive TimedStep : Int → World → Int → World → Prop where
  | message (c t1 t2 t3 : Int) (env : Chrome) (m : Message) (w : World)
      (h1 : c ≤ t1) (h2 : t1 ≤ t2) (h3 : t2 ≤ t3) :
      TimedStep c w t3 (handleMessage t1 t2 t3 env m w)
  | activated (c t1 t2 : Int) (env : Chrome) (tabId : TabId) (w : World)
      (h1 : c ≤ t1) (h2 : t1 ≤ t2) :
      TimedStep c w t2 (onActivated t1 t2 env tabId w)
  | updated (c : Int) (env : Chrome) (tabId : TabId) (changeInfo : ChangeInfo) (w : World) :
      TimedStep c w c (onUpdated env tabId changeInfo w)
  | removed (c t1 t2 : Int) (tabId : TabId) (w : World)
      (h1 : c ≤ t1) (h2 : t1 ≤ t2) :
      TimedStep c w t2 (onRemoved t1 t2 tabId w)
  | focusChanged (c t1 t2 : Int) (windowId : Int) (w : World)
      (h1 : c ≤ t1) (h2 : t1 ≤ t2) :
      TimedStep c w t2 (onFocusChanged t1 t2 windowId w)
  | stateChanged (c t1 t2 : Int) (newState : IdleState) (w : World)
      (h1 : c ≤ t1) (h2 : t1 ≤ t2) :
      TimedStep c w t2 (onStateChanged t1 t2 newState w)
  | tick (c now : Int) (w : World) (h1 : c ≤ now) :
      TimedStep c w now (onTick now w)

/-- The worlds reachable, under a clock that never runs backwards, from a
`startSession` at time `t0` on a stopped world; the index is the last clock
reading. -/
inductive TimedReachable : Int → World → Prop where
  | start (t0 : Int) (env : Chrome) (w0 : World) (h : w0.sessionState.isRunning = false) :
      TimedReachable t0 (startSession t0 env w0)
  | step (c c' : Int) (w v : World) (hw : TimedReachable c w) (hs : TimedStep c w c' v) :
      TimedReachable c' v

/-- The away-time bound on one `sessionState` at last clock reading `c`: while
running, both timestamps are numbers, `0 ≤ awayTimeMs ≤ lastTickMs -
startTimeMs`, and `lastTickMs` is not ahead of the clock. -/
def AwayInv (c : Int) (s : SessionState) : Prop :=
  s.isRunning = true →
    ∃ st lt : Int, s.startTimeMs = some st ∧ s.lastTickMs = some lt ∧
      0 ≤ s.awayTimeMs ∧ s.awayTimeMs ≤ lt - st ∧ lt ≤ c

/-- The state `r` that follows `s` satisfies the away-time bound at clock `c`,
and, when the session runs before and after, its away time has not decreased. -/
def Advances (c : Int) (s r : SessionState) : Prop :=
  AwayInv c r ∧ (s.isRunning = true → r.isRunning = true → s.awayTimeMs ≤ r.awayTimeMs)

/-- The no-duplicates invariant of the data model on one `sessionState`. -/
def NodupInv (s : SessionState) : Prop :=
  s.allowedTabIds.Nodup ∧ s.allowedDomains.Nodup

/-- The stopped-state invariant of the data model on one `sessionState`. -/
def StoppedInv (s : SessionState) : Prop :=
  (s.isRunning = false →
    s.startTimeMs = none ∧ s.lastTickMs = none ∧ s.switchCount = 0 ∧ s.awayTimeMs = 0) ∧
  (s.isRunning = true → s.startTimeMs ≠ none ∧ s.lastTickMs ≠ none)

end FocusCostTracker

/-! ## Time accounting and the two predicates -/

namespace FocusCostTracker

theorem updateTime_running (now lt : Int) (w : World)
    (hrun : w.sessionState.isRunning = true) (hlt : w.sessionState.lastTickMs = some lt) :
    updateTime now w =
      { w with sessionState := accounted now lt w, storage := some (accounted now lt w) } := by
  cases hf : isFocusedState w <;>
    simp [updateTime, saveSessionState, hrun, hlt, hf, accounted]

theorem updateTime_not_running (now : Int) (w : World)
    (h : w.sessionState.isRunning = false) : updateTime now w = w := by
  simp [updateTime, h]

theorem updateTime_no_tick (now : Int) (w : World)
    (h : w.sessionState.lastTickMs = none) : updateTime now w = w := by
  cases hrun : w.sessionState.isRunning <;> simp [updateTime, h, hrun]

/-- The focused predicate reads only the running flag, the focus and idle
flags, the active tab and the two allow-lists. -/
theorem isFocusedState_congr (w v : World)
    (h1 : v.sessionState.isRunning = w.sessionState.isRunning)
    (h2 : v.sessionState.chromeFocused = w.sessionState.chromeFocused)
    (h3 : v.sessionState.idleState = w.sessionState.idleState)
    (h4 : v.sessionState.activeTabId = w.sessionState.activeTabId)
    (h5 : v.sessionState.activeDomain = w.sessionState.activeDomain)
    (h6 : v.sessionState.allowedTabIds = w.sessionState.allowedTabIds)
    (h7 : v.sessionState.allowedDomains = w.sessionState.allowedDomains) :
    isFocusedState v = isFocusedState w := by
  simp [isFocusedState, isTabAllowed, h1, h2, h3, h4, h5, h6, h7]

/-- C1. `updateTime` at clock value `now`: in a running state whose `lastTickMs`
is the number `lt`, `awayTimeMs` grows by exactly `now - lt` when
`isFocusedState()` is false and is unchanged when it is true, `lastTickMs`
becomes `now`, no other field of `sessionState` changes (nor the ticker, nor
`previousWasAllowed`, nor the redirects issued), and the new state is the one
persisted; when `isRunning` is false or `lastTickMs` is `null` nothing changes
at all. -/
theorem updateTime_postcondition (now : Int) (w : World) :
    (∀ lt : Int, w.sessionState.isRunning = true → w.sessionState.lastTickMs = some lt →
      (isFocusedState w = false →
        (updateTime now w).sessionState.awayTimeMs = w.sessionState.awayTimeMs + (now - lt)) ∧
      (isFocusedState w = true →
        (updateTime now w).sessionState.awayTimeMs = w.sessionState.awayTimeMs) ∧
      (updateTime now w).sessionState.lastTickMs = some now ∧
      (updateTime now w).sessionState =
        { w.sessionState with
          awayTimeMs := (updateTime now w).sessionState.awayTimeMs
          lastTickMs := some now } ∧
      (updateTime now w).tickerInterval = w.tickerInterval ∧
      (updateTime now w).previousWasAllowed = w.previousWasAllowed ∧
      (updateTime now w).redirects = w.redirects ∧
      (updateTime now w).storage = some (updateTime now w).sessionState) ∧
    ((w.sessionState.isRunning = false ∨ w.sessionState.lastTickMs = none) →
      updateTime now w = w) := by
  refine ⟨?_, ?_⟩
  · intro lt hrun hlt
    rw [updateTime_running now lt w hrun hlt]
    refine ⟨?_, ?_, rfl, rfl, rfl, rfl, rfl, rfl⟩
    · intro hf
      simp [accounted, hf]
    · intro hf
      simp [accounted, hf]
  · rintro (h | h)
    · exact updateTime_not_running now w h
    · exact updateTime_no_tick now w h

/-- Witness for C1 on a focused running world (clock `9000`) and on the
initial, stopped world. -/
theorem updateTime_postcondition_witness :
    (updateTime 9000 runningWorld).sessionState.awayTimeMs = 500 ∧
    (updateTime 9000 runningWorld).sessionState.lastTickMs = some 9000 ∧
    updateTime 9000 initialWorld = initialWorld :=
  ⟨((updateTime_postcondition 9000 runningWorld).1 4000 rfl rfl).2.1 (by decide),
    ((updateTime_postcondition 9000 runningWorld).1 4000 rfl rfl).2.2.1,
    (updateTime_postcondition 9000 initialWorld).2 (Or.inl rfl)⟩

/-- C2. `updateTime` is idempotent at a fixed clock value: applying it twice at
`now` gives the same world (state, storage and all) as applying it once. -/
theorem updateTime_idempotent (now : Int) (w : World) :
    updateTime now (updateTime now w) = updateTime now w := by
  cases hrun : w.sessionState.isRunning with
  | false => rw [updateTime_not_running now w hrun, updateTime_not_running now w hrun]
  | true =>
    cases hlt : w.sessionState.lastTickMs with
    | none => rw [updateTime_no_tick now w hlt, updateTime_no_tick now w hlt]
    | some lt =>
      rw [updateTime_running now lt w hrun hlt]
      rw [updateTime_running now now _ (by simpa [accounted] using hrun) (by simp [accounted])]
      simp [accounted]

/-- C3. The focused predicate: in a running state `isFocusedState()` is true
exactly when `chromeFocused` is true, `idleState` is `'active'` and the active
tab is allowed; in a state that is not running it is false. -/
theorem isFocusedState_iff (w : World) :
    (w.sessionState.isRunning = true →
      (isFocusedState w = true ↔
        w.sessionState.chromeFocused = true ∧
        w.sessionState.idleState = IdleState.active ∧
        isTabAllowed w w.sessionState.activeTabId w.sessionState.activeDomain = true)) ∧
    (w.sessionState.isRunning = false → isFocusedState w = false) := by
  refine ⟨?_, ?_⟩
  · intro h
    simp [isFocusedState, h, and_assoc]
  · intro h
    simp [isFocusedState, h]

/-- Witness for C3 on a running world and on the initial, stopped world. -/
theorem isFocusedState_iff_witness :
    isFocusedState runningWorld = true ∧ isFocusedState initialWorld = false :=
  ⟨((isFocusedState_iff runningWorld).1 rfl).2 ⟨rfl, rfl, by decide⟩,
    (isFocusedState_iff initialWorld).2 rfl⟩

/-- C4, as stated, fails: after `addAllowedTab(0)` and `addAllowedDomain('')`
on the initial world the id `0` is a member of `allowedTabIds` and the empty
string is a member of `allowedDomains`, yet `isTabAllowed(0, '')` is false. -/
theorem isTabAllowed_membership_fails :
    ¬ (isTabAllowed (addAllowedDomain "" (addAllowedTab 0 initialWorld)) (some 0) (some "") = true ↔
        ((0 : TabId) ∈ (addAllowedDomain "" (addAllowedTab 0 initialWorld)).sessionState.allowedTabIds ∨
          "" ∈ (addAllowedDomain "" (addAllowedTab 0 initialWorld)).sessionState.allowedDomains)) := by
  decide

/-- C4, amended. `isTabAllowed(id, domain)` is true exactly when `id` is a
truthy number (neither `null` nor `0`) that is a member of `allowedTabIds`, or
`domain` is a truthy string (neither `null` nor empty) that is a member of
`allowedDomains`. -/
theorem isTabAllowed_iff (w : World) (tabId : Option TabId) (domain : Option String) :
    isTabAllowed w tabId domain = true ↔
      (∃ id : TabId, tabId = some id ∧ id ≠ 0 ∧ id ∈ w.sessionState.allowedTabIds) ∨
      (∃ d : String, domain = some d ∧ d ≠ "" ∧ d ∈ w.sessionState.allowedDomains) := by
  cases tabId <;> cases domain <;>
    simp [isTabAllowed, truthyNum, truthyStr, arrayIncludes]

end FocusCostTracker

/-! ## Frame lemmas -/

namespace FocusCostTracker

/-- Whatever the branch, `updateTime` touches only `awayTimeMs`, `lastTickMs`
and the storage key. -/
theorem updateTime_frame (now : Int) (w : World) :
    ∃ (a : Int) (l : Option Int) (st : Option SessionState),
      updateTime now w =
        { w with
          sessionState := { w.sessionState with awayTimeMs := a, lastTickMs := l }
          storage := st } := by
  unfold updateTime
  split
  · dsimp only
    split
    · exact ⟨_, _, _, rfl⟩
    · exact ⟨_, _, _, rfl⟩
  · exact ⟨w.sessionState.awayTimeMs, w.sessionState.lastTickMs, w.storage, rfl⟩

/-- The allowed predicate reads only the two allow-lists. -/
theorem isTabAllowed_congr (w v : World) (tabId : Option TabId) (domain : Option String)
    (h1 : v.sessionState.allowedTabIds = w.sessionState.allowedTabIds)
    (h2 : v.sessionState.allowedDomains = w.sessionState.allowedDomains) :
    isTabAllowed v tabId domain = isTabAllowed w tabId domain := by
  simp [isTabAllowed, h1, h2]

theorem isTabAllowed_eq (w : World) (tabId : Option TabId) (domain : Option String) :
    isTabAllowed w tabId domain =
      allowedIn w.sessionState.allowedTabIds w.sessionState.allowedDomains tabId domain := by
  unfold isTabAllowed allowedIn
  cases truthyNum tabId && arrayIncludes w.sessionState.allowedTabIds tabId <;>
    cases truthyStr domain && arrayIncludes w.sessionState.allowedDomains domain <;> rfl

/-- Lock enforcement changes nothing but the log of redirects. -/
theorem enforceFocusLock_frame (env : Chrome) (tabId : TabId) (w : World) :
    ∃ r : List (TabId × String), enforceFocusLock env tabId w = { w with redirects := r } := by
  unfold enforceFocusLock
  split
  · exact ⟨w.redirects, rfl⟩
  · split
    · exact ⟨w.redirects, rfl⟩
    · split
      · exact ⟨w.redirects, rfl⟩
      · split
        · exact ⟨w.redirects, rfl⟩
        · split
          · exact ⟨w.redirects, rfl⟩
          · dsimp only
            split
            · split
              · exact ⟨_, rfl⟩
              · exact ⟨w.redirects, rfl⟩
            · exact ⟨w.redirects, rfl⟩

theorem enforceFocusLock_sessionState (env : Chrome) (tabId : TabId) (w : World) :
    (enforceFocusLock env tabId w).sessionState = w.sessionState := by
  obtain ⟨r, h⟩ := enforceFocusLock_frame env tabId w
  rw [h]

theorem enforceFocusLock_storage (env : Chrome) (tabId : TabId) (w : World) :
    (enforceFocusLock env tabId w).storage = w.storage := by
  obtain ⟨r, h⟩ := enforceFocusLock_frame env tabId w
  rw [h]

theorem updateActiveTab_eq (env : Chrome) (tabId : TabId) (w : World) :
    updateActiveTab env tabId w =
      { w with sessionState :=
          { w.sessionState with
            activeTabId := some tabId
            activeDomain := resolvedDomain env tabId } } := by
  unfold updateActiveTab resolvedDomain
  by_cases h : tabId = 0
  · simp [truthyNum, h]
  · cases hg : env.tabsGet tabId <;> simp [truthyNum, h, hg]

end FocusCostTracker

/-! ## Switch counting and the stop summary -/

namespace FocusCostTracker

/-- C5. Switch counting on tab activation: in a running state, activating tab
`tabId` makes it the active tab with its resolved domain, and `switchCount`
grows by exactly 1 when the previous `activeTabId` is not `null` and
`isTabAllowed` of the previous (id, domain) pair differs from `isTabAllowed` of
the new pair; otherwise `switchCount` is unchanged. -/
theorem onActivated_switchCount (t1 t2 : Int) (env : Chrome) (tabId : TabId) (w : World)
    (hrun : w.sessionState.isRunning = true) :
    (onActivated t1 t2 env tabId w).sessionState.activeTabId = some tabId ∧
    (onActivated t1 t2 env tabId w).sessionState.activeDomain = resolvedDomain env tabId ∧
    ((w.sessionState.activeTabId ≠ none ∧
        isTabAllowed w w.sessionState.activeTabId w.sessionState.activeDomain ≠
          isTabAllowed w (some tabId) (resolvedDomain env tabId)) →
      (onActivated t1 t2 env tabId w).sessionState.switchCount =
        w.sessionState.switchCount + 1) ∧
    (¬ (w.sessionState.activeTabId ≠ none ∧
        isTabAllowed w w.sessionState.activeTabId w.sessionState.activeDomain ≠
          isTabAllowed w (some tabId) (resolvedDomain env tabId)) →
      (onActivated t1 t2 env tabId w).sessionState.switchCount =
        w.sessionState.switchCount) := by
  obtain ⟨a, l, st, hu⟩ := updateTime_frame t1 w
  by_cases heq :
      allowedIn w.sessionState.allowedTabIds w.sessionState.allowedDomains
          w.sessionState.activeTabId w.sessionState.activeDomain =
        allowedIn w.sessionState.allowedTabIds w.sessionState.allowedDomains
          (some tabId) (resolvedDomain env tabId) <;>
    cases hp : w.sessionState.activeTabId <;>
    cases hl : w.sessionState.lockEnabled <;>
    simp [hp] at heq <;>
    simp [onActivated, hrun, hu, updateActiveTab_eq, isTabAllowed_eq, saveSessionState,
      enforceFocusLock_sessionState, hl, hp, heq]

/-- Witness for C5: in the running example world (tab `7` active and allowed,
`switchCount` 2) activating the disallowed tab `9` gives `switchCount` 3. -/
theorem onActivated_switchCount_witness :
    (onActivated 5000 5000 exampleChrome 9 runningWorld).sessionState.switchCount = 3 :=
  (onActivated_switchCount 5000 5000 exampleChrome 9 runningWorld rfl).2.2.1
    ⟨by decide, by decide⟩

theorem stopTicker_sessionState (w : World) : (stopTicker w).sessionState = w.sessionState := by
  unfold stopTicker
  split <;> rfl

theorem updateTime_stopTicker (now : Int) (w : World) :
    (updateTime now (stopTicker w)).sessionState = (updateTime now w).sessionState := by
  have hs := stopTicker_sessionState w
  have hf : isFocusedState (stopTicker w) = isFocusedState w := by
    apply isFocusedState_congr <;> rw [hs]
  cases hrun : w.sessionState.isRunning with
  | false =>
    rw [updateTime_not_running now w hrun, updateTime_not_running now _ (by rw [hs]; exact hrun), hs]
  | true =>
    cases hlt : w.sessionState.lastTickMs with
    | none => rw [updateTime_no_tick now w hlt, updateTime_no_tick now _ (by rw [hs]; exact hlt), hs]
    | some lt =>
      rw [updateTime_running now lt w hrun hlt,
        updateTime_running now lt _ (by rw [hs]; exact hrun) (by rw [hs]; exact hlt)]
      simp [accounted, hs, hf]

theorem stopSession_running (t1 t2 t3 : Int) (w : World)
    (hrun : w.sessionState.isRunning = true) :
    (stopSession t1 t2 t3 w).sessionState =
      { (updateTime t1 w).sessionState with
        lastSessionSummary := some (summaryOf t2 t3 (updateTime t1 w).sessionState)
        isRunning := false
        startTimeMs := none
        lastTickMs := none
        switchCount := 0
        awayTimeMs := 0
        activeTabId := none
        activeDomain := none
        idleState := IdleState.active } := by
  simp [stopSession, hrun, saveSessionState, updateTime_stopTicker, summaryOf]

/-- C6. The stop summary: stopping a running session at time `now` stores a
`lastSessionSummary` whose `durationMs` is `now - startTimeMs`, whose
`awayTimeMs` is the away time after the final `updateTime` flush at `now`,
whose `switchCount` is the one before the stop, whose `endedAtMs` is `now` and
whose `focusedTimeMs` is `max(0, durationMs - awayTimeMs)`, hence never
negative, whatever the clock and the accumulated away time. -/
theorem stopSession_summary (now : Int) (w : World)
    (hrun : w.sessionState.isRunning = true) :
    ∃ sm : SessionSummary,
      (stopSession now now now w).sessionState.lastSessionSummary = some sm ∧
      sm.durationMs = now - toNumber w.sessionState.startTimeMs ∧
      (∀ st : Int, w.sessionState.startTimeMs = some st → sm.durationMs = now - st) ∧
      sm.awayTimeMs = (updateTime now w).sessionState.awayTimeMs ∧
      sm.switchCount = w.sessionState.switchCount ∧
      sm.endedAtMs = now ∧
      sm.focusedTimeMs = max 0 (sm.durationMs - sm.awayTimeMs) ∧
      0 ≤ sm.focusedTimeMs := by
  obtain ⟨a, l, st, hu⟩ := updateTime_frame now w
  refine ⟨summaryOf now now (updateTime now w).sessionState, ?_, ?_, ?_, ?_, ?_, ?_, ?_, ?_⟩
  · rw [stopSession_running now now now w hrun]
  · simp [summaryOf, hu]
  · intro s hs
    simp [summaryOf, hu, hs, toNumber]
  · rfl
  · simp [summaryOf, hu]
  · rfl
  · rfl
  · exact le_max_left _ _

/-- Witness for C6: stopping the running example world (started at `1000`,
focused since the last tick, `500` ms away so far) at `9000`. -/
theorem stopSession_summary_witness :
    ∃ sm : SessionSummary,
      (stopSession 9000 9000 9000 runningWorld).sessionState.lastSessionSummary = some sm ∧
      sm.durationMs = 8000 ∧ sm.awayTimeMs = 500 ∧ sm.switchCount = 2 ∧
      sm.endedAtMs = 9000 ∧ sm.focusedTimeMs = 7500 := by
  obtain ⟨sm, h1, h2, _, h4, h5, h6, h7, _⟩ := stopSession_summary 9000 runningWorld rfl
  have ha : (updateTime 9000 runningWorld).sessionState.awayTimeMs = 500 := by decide
  have hd : sm.durationMs = 8000 := by rw [h2]; decide
  refine ⟨sm, h1, hd, by rw [h4, ha], by rw [h5]; rfl, h6, ?_⟩
  rw [h7, hd, h4, ha]
  decide

end FocusCostTracker

/-! ## Explicit forms of the listeners -/

namespace FocusCostTracker

theorem updateTime_isRunning (now : Int) (w : World) :
    (updateTime now w).sessionState.isRunning = w.sessionState.isRunning := by
  obtain ⟨a, l, st, hu⟩ := updateTime_frame now w
  rw [hu]

theorem updateTime_startTimeMs (now : Int) (w : World) :
    (updateTime now w).sessionState.startTimeMs = w.sessionState.startTimeMs := by
  obtain ⟨a, l, st, hu⟩ := updateTime_frame now w
  rw [hu]

theorem updateTime_primaryTabId (now : Int) (w : World) :
    (updateTime now w).sessionState.primaryTabId = w.sessionState.primaryTabId := by
  obtain ⟨a, l, st, hu⟩ := updateTime_frame now w
  rw [hu]

theorem updateTime_primaryUrl (now : Int) (w : World) :
    (updateTime now w).sessionState.primaryUrl = w.sessionState.primaryUrl := by
  obtain ⟨a, l, st, hu⟩ := updateTime_frame now w
  rw [hu]

theorem updateTime_primaryDomain (now : Int) (w : World) :
    (updateTime now w).sessionState.primaryDomain = w.sessionState.primaryDomain := by
  obtain ⟨a, l, st, hu⟩ := updateTime_frame now w
  rw [hu]

theorem updateTime_primaryTitle (now : Int) (w : World) :
    (updateTime now w).sessionState.primaryTitle = w.sessionState.primaryTitle := by
  obtain ⟨a, l, st, hu⟩ := updateTime_frame now w
  rw [hu]

theorem updateTime_allowedTabIds (now : Int) (w : World) :
    (updateTime now w).sessionState.allowedTabIds = w.sessionState.allowedTabIds := by
  obtain ⟨a, l, st, hu⟩ := updateTime_frame now w
  rw [hu]

theorem updateTime_allowedDomains (now : Int) (w : World) :
    (updateTime now w).sessionState.allowedDomains = w.sessionState.allowedDomains := by
  obtain ⟨a, l, st, hu⟩ := updateTime_frame now w
  rw [hu]

theorem updateTime_activeTabId (now : Int) (w : World) :
    (updateTime now w).sessionState.activeTabId = w.sessionState.activeTabId := by
  obtain ⟨a, l, st, hu⟩ := updateTime_frame now w
  rw [hu]

theorem updateTime_activeDomain (now : Int) (w : World) :
    (updateTime now w).sessionState.activeDomain = w.sessionState.activeDomain := by
  obtain ⟨a, l, st, hu⟩ := updateTime_frame now w
  rw [hu]

theorem updateTime_switchCount (now : Int) (w : World) :
    (updateTime now w).sessionState.switchCount = w.sessionState.switchCount := by
  obtain ⟨a, l, st, hu⟩ := updateTime_frame now w
  rw [hu]

theorem updateTime_chromeFocused (now : Int) (w : World) :
    (updateTime now w).sessionState.chromeFocused = w.sessionState.chromeFocused := by
  obtain ⟨a, l, st, hu⟩ := updateTime_frame now w
  rw [hu]

theorem updateTime_idleState (now : Int) (w : World) :
    (updateTime now w).sessionState.idleState = w.sessionState.idleState := by
  obtain ⟨a, l, st, hu⟩ := updateTime_frame now w
  rw [hu]

theorem updateTime_lockEnabled (now : Int) (w : World) :
    (updateTime now w).sessionState.lockEnabled = w.sessionState.lockEnabled := by
  obtain ⟨a, l, st, hu⟩ := updateTime_frame now w
  rw [hu]

theorem updateTime_lastSessionSummary (now : Int) (w : World) :
    (updateTime now w).sessionState.lastSessionSummary = w.sessionState.lastSessionSummary := by
  obtain ⟨a, l, st, hu⟩ := updateTime_frame now w
  rw [hu]

theorem onFocusChanged_running (t1 t2 : Int) (windowId : Int) (w : World)
    (hrun : w.sessionState.isRunning = true) :
    (onFocusChanged t1 t2 windowId w).sessionState =
      { (updateTime t1 w).sessionState with
        chromeFocused := decide (windowId ≠ WINDOW_ID_NONE)
        lastTickMs := some t2 } := by
  simp [onFocusChanged, hrun, updateTime_isRunning, saveSessionState]

theorem onFocusChanged_stopped (t1 t2 : Int) (windowId : Int) (w : World)
    (hrun : w.sessionState.isRunning = false) :
    onFocusChanged t1 t2 windowId w =
      { w with sessionState :=
          { w.sessionState with chromeFocused := decide (windowId ≠ WINDOW_ID_NONE) } } := by
  simp [onFocusChanged, hrun]

theorem onStateChanged_running (t1 t2 : Int) (newState : IdleState) (w : World)
    (hrun : w.sessionState.isRunning = true) :
    (onStateChanged t1 t2 newState w).sessionState =
      { (updateTime t1 w).sessionState with
        idleState := newState
        lastTickMs := some t2 } := by
  simp [onStateChanged, hrun, updateTime_isRunning, saveSessionState]

theorem onStateChanged_stopped (t1 t2 : Int) (newState : IdleState) (w : World)
    (hrun : w.sessionState.isRunning = false) :
    onStateChanged t1 t2 newState w =
      { w with sessionState := { w.sessionState with idleState := newState } } := by
  simp [onStateChanged, hrun]

theorem onActivated_running (t1 t2 : Int) (env : Chrome) (tabId : TabId) (w : World)
    (hrun : w.sessionState.isRunning = true) :
    (onActivated t1 t2 env tabId w).sessionState =
      { (updateTime t1 w).sessionState with
        activeTabId := some tabId
        activeDomain := resolvedDomain env tabId
        switchCount :=
          if w.sessionState.activeTabId.isSome &&
              (isTabAllowed w w.sessionState.activeTabId w.sessionState.activeDomain !=
                isTabAllowed w (some tabId) (resolvedDomain env tabId)) then
            w.sessionState.switchCount + 1
          else w.sessionState.switchCount
        lastTickMs := some t2 } := by
  obtain ⟨a, l, st, hu⟩ := updateTime_frame t1 w
  cases hc : (w.sessionState.activeTabId.isSome &&
      (allowedIn w.sessionState.allowedTabIds w.sessionState.allowedDomains
          w.sessionState.activeTabId w.sessionState.activeDomain !=
        allowedIn w.sessionState.allowedTabIds w.sessionState.allowedDomains
          (some tabId) (resolvedDomain env tabId))) <;>
    cases hl : w.sessionState.lockEnabled <;>
    simp [onActivated, hrun, hu, updateActiveTab_eq, isTabAllowed_eq, saveSessionState,
      enforceFocusLock_sessionState, hl, hc]

theorem onActivated_stopped (t1 t2 : Int) (env : Chrome) (tabId : TabId) (w : World)
    (hrun : w.sessionState.isRunning = false) :
    onActivated t1 t2 env tabId w =
      { w with sessionState :=
          { w.sessionState with
            activeTabId := some tabId
            activeDomain := resolvedDomain env tabId } } := by
  simp [onActivated, hrun, updateActiveTab_eq]

theorem startSession_stopped (now : Int) (env : Chrome) (w : World)
    (hrun : w.sessionState.isRunning = false) :
    (startSession now env w).sessionState =
      { w.sessionState with
        isRunning := true
        startTimeMs := some now
        lastTickMs := some now
        switchCount := 0
        awayTimeMs := 0
        activeTabId :=
          match env.tabsQueryActive with
          | tab :: _ => some tab.id
          | [] => w.sessionState.activeTabId
        activeDomain :=
          match env.tabsQueryActive with
          | tab :: _ => resolvedDomain env tab.id
          | [] => w.sessionState.activeDomain
        chromeFocused := env.windowFocused
        idleState := env.idleQueryState } := by
  unfold startSession startTicker
  cases hq : env.tabsQueryActive <;>
    cases ht : w.tickerInterval <;>
    simp [hrun, saveSessionState, updateActiveTab_eq, ht]

theorem startSession_running (now : Int) (env : Chrome) (w : World)
    (hrun : w.sessionState.isRunning = true) : startSession now env w = w := by
  simp [startSession, hrun]

theorem stopSession_stopped (t1 t2 t3 : Int) (w : World)
    (hrun : w.sessionState.isRunning = false) : stopSession t1 t2 t3 w = w := by
  simp [stopSession, hrun]

end FocusCostTracker

/-! ## The stopped-state invariant under run-to-completion scheduling -/

namespace FocusCostTracker

theorem StoppedInv_congr (s r : SessionState) (h : StoppedInv s)
    (h1 : r.isRunning = s.isRunning) (h2 : r.startTimeMs = s.startTimeMs)
    (h3 : r.lastTickMs = s.lastTickMs) (h4 : r.switchCount = s.switchCount)
    (h5 : r.awayTimeMs = s.awayTimeMs) : StoppedInv r := by
  unfold StoppedInv at *
  rw [h1, h2, h3, h4, h5]
  exact h

theorem updateTime_inv (now : Int) (w : World) (h : StoppedInv w.sessionState) :
    StoppedInv (updateTime now w).sessionState := by
  cases hrun : w.sessionState.isRunning with
  | false => rw [updateTime_not_running now w hrun]; exact h
  | true =>
    cases hlt : w.sessionState.lastTickMs with
    | none => rw [updateTime_no_tick now w hlt]; exact h
    | some lt =>
      rw [updateTime_running now lt w hrun hlt]
      have h2 := h.2 hrun
      exact ⟨fun hf => by simp [accounted, hrun] at hf, fun _ => ⟨h2.1, by simp [accounted]⟩⟩

theorem restamp_inv (s : SessionState) (t : Int) (h : StoppedInv s) (hrun : s.isRunning = true) :
    ∀ r : SessionState, r.isRunning = true → r.startTimeMs = s.startTimeMs →
      r.lastTickMs = some t → StoppedInv r := by
  intro r h1 h2 h3
  refine ⟨fun hf => ?_, fun _ => ⟨?_, ?_⟩⟩
  · rw [h1] at hf; cases hf
  · rw [h2]; exact (h.2 hrun).1
  · rw [h3]; simp

theorem onActivated_inv (t1 t2 : Int) (env : Chrome) (tabId : TabId) (w : World)
    (h : StoppedInv w.sessionState) :
    StoppedInv (onActivated t1 t2 env tabId w).sessionState := by
  cases hrun : w.sessionState.isRunning with
  | false =>
    rw [onActivated_stopped t1 t2 env tabId w hrun]
    exact StoppedInv_congr _ _ h rfl rfl rfl rfl rfl
  | true =>
    have hu := updateTime_inv t1 w h
    obtain ⟨a, l, st, he⟩ := updateTime_frame t1 w
    rw [onActivated_running t1 t2 env tabId w hrun]
    apply restamp_inv _ t2 hu (by rw [updateTime_isRunning]; exact hrun)
    · simp [updateTime_isRunning, hrun]
    · rfl
    · rfl

theorem onFocusChanged_inv (t1 t2 : Int) (windowId : Int) (w : World)
    (h : StoppedInv w.sessionState) :
    StoppedInv (onFocusChanged t1 t2 windowId w).sessionState := by
  cases hrun : w.sessionState.isRunning with
  | false =>
    rw [onFocusChanged_stopped t1 t2 windowId w hrun]
    exact StoppedInv_congr _ _ h rfl rfl rfl rfl rfl
  | true =>
    have hu := updateTime_inv t1 w h
    rw [onFocusChanged_running t1 t2 windowId w hrun]
    apply restamp_inv _ t2 hu (by rw [updateTime_isRunning]; exact hrun)
    · simp [updateTime_isRunning, hrun]
    · rfl
    · rfl

theorem onStateChanged_inv (t1 t2 : Int) (newState : IdleState) (w : World)
    (h : StoppedInv w.sessionState) :
    StoppedInv (onStateChanged t1 t2 newState w).sessionState := by
  cases hrun : w.sessionState.isRunning with
  | false =>
    rw [onStateChanged_stopped t1 t2 newState w hrun]
    exact StoppedInv_congr _ _ h rfl rfl rfl rfl rfl
  | true =>
    have hu := updateTime_inv t1 w h
    rw [onStateChanged_running t1 t2 newState w hrun]
    apply restamp_inv _ t2 hu (by rw [updateTime_isRunning]; exact hrun)
    · simp [updateTime_isRunning, hrun]
    · rfl
    · rfl

/-- The listener of `chrome.tabs.onUpdated` writes only the primary URL, domain
and title, the active domain, the storage key and the redirect log. -/
theorem onUpdated_frame (env : Chrome) (tabId : TabId) (changeInfo : ChangeInfo) (w : World) :
    ∃ (pu pd pt ad : Option String) (st : Option SessionState) (r : List (TabId × String)),
      onUpdated env tabId changeInfo w =
        { w with
          sessionState :=
            { w.sessionState with
              primaryUrl := pu, primaryDomain := pd, primaryTitle := pt, activeDomain := ad }
          storage := st
          redirects := r } := by
  unfold onUpdated
  lift_lets
  intro s0 w1 s1 w2 s2 w3
  have h1 : ∃ (pu pd : Option String) (st : Option SessionState),
      w1 = { w with
        sessionState := { w.sessionState with primaryUrl := pu, primaryDomain := pd }
        storage := st } := by
    simp only [w1, s0, saveSessionState]
    split
    · exact ⟨_, _, _, rfl⟩
    · exact ⟨_, _, _, rfl⟩
  obtain ⟨pu, pd, st1, e1⟩ := h1
  have h2 : ∃ (pu pd pt : Option String) (st : Option SessionState),
      w2 = { w with
        sessionState :=
          { w.sessionState with primaryUrl := pu, primaryDomain := pd, primaryTitle := pt }
        storage := st } := by
    simp only [w2, s1, saveSessionState]
    split
    · split
      · rw [e1]; exact ⟨_, _, _, _, rfl⟩
      · rw [e1]; exact ⟨_, _, _, _, rfl⟩
    · exact ⟨_, _, _, _, rfl⟩
  clear e1 pu pd
  obtain ⟨pu, pd, pt, st2, e2⟩ := h2
  have h3 : ∃ (ad : Option String) (st3 : Option SessionState),
      w3 = { w with
        sessionState :=
          { w.sessionState with
            primaryUrl := pu, primaryDomain := pd, primaryTitle := pt, activeDomain := ad }
        storage := st3 } := by
    simp only [w3, s2, saveSessionState]
    split
    · rw [e2]; exact ⟨_, _, rfl⟩
    · rw [e2]; exact ⟨_, _, rfl⟩
  obtain ⟨ad, st3, e3⟩ := h3
  split
  · obtain ⟨r, hr⟩ := enforceFocusLock_frame env tabId w3
    rw [hr, e3]
    exact ⟨_, _, _, _, _, _, rfl⟩
  · rw [e3]
    exact ⟨_, _, _, _, _, _, rfl⟩

theorem onUpdated_inv (env : Chrome) (tabId : TabId) (changeInfo : ChangeInfo) (w : World)
    (h : StoppedInv w.sessionState) :
    StoppedInv (onUpdated env tabId changeInfo w).sessionState := by
  obtain ⟨pu, pd, pt, ad, st, r, e⟩ := onUpdated_frame env tabId changeInfo w
  rw [e]
  exact StoppedInv_congr _ _ h rfl rfl rfl rfl rfl

theorem onRemoved_inv (t1 t2 : Int) (tabId : TabId) (w : World)
    (h : StoppedInv w.sessionState) :
    StoppedInv (onRemoved t1 t2 tabId w).sessionState := by
  unfold StoppedInv at h ⊢
  by_cases c1 : arrayIncludes w.sessionState.allowedTabIds (some tabId) = true <;>
    by_cases c2 : w.sessionState.primaryTabId = some tabId <;>
    by_cases c3 : w.sessionState.activeTabId = some tabId <;>
    cases hrun : w.sessionState.isRunning <;>
    simp [onRemoved, saveSessionState, c1, c2, c3, hrun, updateTime_isRunning,
      updateTime_startTimeMs, updateTime_activeTabId] <;>
    simp_all

theorem startSession_inv (now : Int) (env : Chrome) (w : World)
    (h : StoppedInv w.sessionState) :
    StoppedInv (startSession now env w).sessionState := by
  cases hrun : w.sessionState.isRunning with
  | true => rw [startSession_running now env w hrun]; exact h
  | false =>
    rw [startSession_stopped now env w hrun]
    exact ⟨fun hf => (by cases hf), fun _ => ⟨by simp, by simp⟩⟩

theorem stopSession_inv (t1 t2 t3 : Int) (w : World)
    (h : StoppedInv w.sessionState) :
    StoppedInv (stopSession t1 t2 t3 w).sessionState := by
  cases hrun : w.sessionState.isRunning with
  | false => rw [stopSession_stopped t1 t2 t3 w hrun]; exact h
  | true =>
    rw [stopSession_running t1 t2 t3 w hrun]
    exact ⟨fun _ => ⟨rfl, rfl, rfl, rfl⟩, fun hf => by cases hf⟩

theorem setPrimaryToCurrentTab_inv (env : Chrome) (w : World)
    (h : StoppedInv w.sessionState) :
    StoppedInv (setPrimaryToCurrentTab env w).sessionState := by
  unfold setPrimaryToCurrentTab
  split
  · exact h
  · dsimp only [saveSessionState]
    split <;> exact StoppedInv_congr _ _ h rfl rfl rfl rfl rfl

theorem handleMessage_inv (t1 t2 t3 : Int) (env : Chrome) (m : Message) (w : World)
    (h : StoppedInv w.sessionState) :
    StoppedInv (handleMessage t1 t2 t3 env m w).sessionState := by
  cases m with
  | setPrimaryToCurrentTab => exact setPrimaryToCurrentTab_inv env w h
  | startSession => exact startSession_inv t1 env w h
  | stopSession => exact stopSession_inv t1 t2 t3 w h
  | getSessionState =>
    cases hrun : w.sessionState.isRunning with
    | false => simpa [handleMessage, hrun] using h
    | true =>
      have hu := updateTime_inv t1 w h
      simp only [handleMessage, hrun, if_true, saveSessionState]
      apply restamp_inv _ t2 hu (by rw [updateTime_isRunning]; exact hrun)
      · simp [updateTime_isRunning, hrun]
      · rfl
      · rfl
  | setLockEnabled enabled => exact StoppedInv_congr _ _ h rfl rfl rfl rfl rfl
  | addAllowedTab tabId =>
    simp only [handleMessage, addAllowedTab, saveSessionState]
    split
    · exact StoppedInv_congr _ _ h rfl rfl rfl rfl rfl
    · exact h
  | removeAllowedTab tabId => exact StoppedInv_congr _ _ h rfl rfl rfl rfl rfl
  | addAllowedDomain domain =>
    simp only [handleMessage, addAllowedDomain, saveSessionState]
    split
    · exact StoppedInv_congr _ _ h rfl rfl rfl rfl rfl
    · exact h
  | removeAllowedDomain domain => exact StoppedInv_congr _ _ h rfl rfl rfl rfl rfl
  | isLockedPage => exact h
  | unknown action => exact h

theorem Step_inv (w v : World) (hs : Step w v) (h : StoppedInv w.sessionState) :
    StoppedInv v.sessionState := by
  cases hs with
  | message t1 t2 t3 env m => exact handleMessage_inv t1 t2 t3 env m w h
  | activated t1 t2 env tabId => exact onActivated_inv t1 t2 env tabId w h
  | updated env tabId changeInfo => exact onUpdated_inv env tabId changeInfo w h
  | removed t1 t2 tabId => exact onRemoved_inv t1 t2 tabId w h
  | focusChanged t1 t2 windowId => exact onFocusChanged_inv t1 t2 windowId w h
  | stateChanged t1 t2 newState => exact onStateChanged_inv t1 t2 newState w h
  | tick now => exact updateTime_inv now w h

theorem Reachable_inv (w : World) (h : Reachable w) : StoppedInv w.sessionState := by
  induction h with
  | init w h0 =>
    rw [h0]
    exact ⟨fun _ => ⟨rfl, rfl, rfl, rfl⟩, fun hf => by cases hf⟩
  | step w v _ hs ih => exact Step_inv w v hs ih

/-- The stopped-state invariant under run-to-completion scheduling: in every
world reachable from `DEFAULT_STATE` by any sequence of commands
(`handleMessage` with any message), environment events (tab activated, updated,
removed, window focus changed, idle state changed) and timer ticks, at any
clock readings, each handler finishing before the next one starts,
`isRunning == false` implies `startTimeMs == null`, `lastTickMs == null`,
`switchCount == 0` and `awayTimeMs == 0`, and `isRunning == true` implies that
`startTimeMs` and `lastTickMs` are both non-null. The source does not enforce
that scheduling, and the invariant fails when `getSessionState` is dispatched
while `stopSession` is suspended (`racedWorld`). -/
theorem stopped_state_invariant (w : World) (h : Reachable w) :
    (w.sessionState.isRunning = false →
      w.sessionState.startTimeMs = none ∧ w.sessionState.lastTickMs = none ∧
      w.sessionState.switchCount = 0 ∧ w.sessionState.awayTimeMs = 0) ∧
    (w.sessionState.isRunning = true →
      w.sessionState.startTimeMs ≠ none ∧ w.sessionState.lastTickMs ≠ none) :=
  Reachable_inv w h

/-- An instance of the invariant under run-to-completion scheduling: the world
after start at `1000`, activation of tab `9` at `6000` and stop at `9000` is
reachable and stopped, so its session fields are cleared. -/
theorem stopped_state_invariant_witness :
    (handleMessage 9000 9000 9000 exampleChrome Message.stopSession
        (onActivated 6000 6000 exampleChrome 9
          (handleMessage 1000 1000 1000 exampleChrome Message.startSession
            initialWorld))).sessionState.startTimeMs = none :=
  ((stopped_state_invariant _
    (Reachable.step _ _
      (Reachable.step _ _
        (Reachable.step _ _ (Reachable.init initialWorld rfl)
          (Step.message 1000 1000 1000 exampleChrome Message.startSession initialWorld))
        (Step.activated 6000 6000 exampleChrome 9 _))
      (Step.message 9000 9000 9000 exampleChrome Message.stopSession _))).1 (by decide)).1

end FocusCostTracker

/-! ## Sessions from start to stop -/

namespace FocusCostTracker

theorem accounted_isFocused (now lt : Int) (w v : World) (h : v.sessionState = accounted now lt w) :
    isFocusedState v = isFocusedState w := by
  apply isFocusedState_congr <;> rw [h] <;> rfl

/-- Any number of ticks, at any clock readings, amounts to one `updateTime` at
the last reading: the intervals between ticks telescope. -/
theorem runTicks_accounted (ticks : List Int) (w : World) (lt : Int)
    (hrun : w.sessionState.isRunning = true) (hlt : w.sessionState.lastTickMs = some lt) :
    ∃ l : Int, (runTicks ticks w).sessionState = accounted l lt w := by
  induction ticks generalizing w lt with
  | nil =>
    refine ⟨lt, ?_⟩
    simp [runTicks, accounted, ← hlt]
  | cons n rest ih =>
    have e : updateTime n w =
        { w with sessionState := accounted n lt w, storage := some (accounted n lt w) } :=
      updateTime_running n lt w hrun hlt
    have hf : isFocusedState (updateTime n w) = isFocusedState w :=
      accounted_isFocused n lt w _ (by rw [e])
    obtain ⟨l, hl⟩ := ih (updateTime n w) n (by rw [updateTime_isRunning]; exact hrun)
      (by rw [e]; rfl)
    refine ⟨l, ?_⟩
    have : runTicks (n :: rest) w = runTicks rest (updateTime n w) := rfl
    rw [this, hl]
    unfold accounted
    rw [hf, e]
    cases hfw : isFocusedState w
    · simp [accounted, hfw]
      ring
    · simp [accounted, hfw]

/-- The scenario of C8 from the state right after the start. -/
theorem scenario_core (t : Int) (w1 : World) (env1 : Chrome) (newTab : TabId)
    (ticks1 ticks2 : List Int)
    (hrun : w1.sessionState.isRunning = true)
    (hstart : w1.sessionState.startTimeMs = some t)
    (hlt : w1.sessionState.lastTickMs = some t)
    (haway : w1.sessionState.awayTimeMs = 0)
    (hsc : w1.sessionState.switchCount = 0)
    (hfoc : isFocusedState w1 = true)
    (hact : w1.sessionState.activeTabId ≠ none)
    (hnew : isTabAllowed w1 (some newTab) (resolvedDomain env1 newTab) = false) :
    (stopSession (t + 8000) (t + 8000) (t + 8000)
      (runTicks ticks2
        (onActivated (t + 5000) (t + 5000) env1 newTab
          (runTicks ticks1 w1)))).sessionState.lastSessionSummary =
      some { durationMs := 8000, awayTimeMs := 3000, focusedTimeMs := 5000,
             switchCount := 1, endedAtMs := t + 8000 } := by
  -- first phase: ticks while focused
  obtain ⟨l1, e2⟩ := runTicks_accounted ticks1 w1 t hrun hlt
  generalize runTicks ticks1 w1 = w2 at e2 ⊢
  have hf2 : isFocusedState w2 = true := (accounted_isFocused l1 t w1 w2 e2).trans hfoc
  have hrun2 : w2.sessionState.isRunning = true := by rw [e2]; exact hrun
  have hlt2 : w2.sessionState.lastTickMs = some l1 := by rw [e2]; rfl
  have haway2 : w2.sessionState.awayTimeMs = 0 := by rw [e2]; simp [accounted, hfoc, haway]
  have hallow1 : isTabAllowed w1 w1.sessionState.activeTabId w1.sessionState.activeDomain = true := by
    simp [isFocusedState] at hfoc
    exact hfoc.2
  -- the activation
  have e3 := onActivated_running (t + 5000) (t + 5000) env1 newTab w2 hrun2
  generalize onActivated (t + 5000) (t + 5000) env1 newTab w2 = w3 at e3 ⊢
  have eu := updateTime_running (t + 5000) l1 w2 hrun2 hlt2
  have hprev : isTabAllowed w2 w2.sessionState.activeTabId w2.sessionState.activeDomain = true := by
    rw [isTabAllowed_eq, e2]
    rw [isTabAllowed_eq] at hallow1
    exact hallow1
  have hcur : isTabAllowed w2 (some newTab) (resolvedDomain env1 newTab) = false := by
    rw [isTabAllowed_eq, e2]
    rw [isTabAllowed_eq] at hnew
    exact hnew
  have hsome : w2.sessionState.activeTabId.isSome = true := by
    rw [e2]
    cases h : w1.sessionState.activeTabId
    · exact absurd h hact
    · simp [accounted, h]
  rw [hprev, hcur, hsome, eu] at e3
  have hrun3 : w3.sessionState.isRunning = true := by rw [e3]; exact hrun2
  have hlt3 : w3.sessionState.lastTickMs = some (t + 5000) := by rw [e3]
  have hstart3 : w3.sessionState.startTimeMs = some t := by
    rw [e3]; simp [accounted, e2, hstart]
  have haway3 : w3.sessionState.awayTimeMs = 0 := by
    rw [e3]; simp [accounted, hf2, haway2]
  have hsc3 : w3.sessionState.switchCount = 1 := by
    rw [e3]; simp [e2, accounted, hsc]
  have hf3 : isFocusedState w3 = false := by
    have : isTabAllowed w3 w3.sessionState.activeTabId w3.sessionState.activeDomain = false := by
      rw [isTabAllowed_eq, e3]
      rw [isTabAllowed_eq] at hcur
      exact hcur
    simp [isFocusedState, this]
  -- second phase: ticks while away
  obtain ⟨l2, e4⟩ := runTicks_accounted ticks2 w3 (t + 5000) hrun3 hlt3
  generalize runTicks ticks2 w3 = w4 at e4 ⊢
  have hf4 : isFocusedState w4 = false := (accounted_isFocused l2 (t + 5000) w3 w4 e4).trans hf3
  have hrun4 : w4.sessionState.isRunning = true := by rw [e4]; exact hrun3
  have hlt4 : w4.sessionState.lastTickMs = some l2 := by rw [e4]; rfl
  -- the stop
  rw [stopSession_running (t + 8000) (t + 8000) (t + 8000) w4 hrun4,
    updateTime_running (t + 8000) l2 w4 hrun4 hlt4]
  simp [summaryOf, accounted, hf4, e4, hf3, hstart3, haway3, hsc3, toNumber]

/-- C8. The end-to-end scenario: a session started at time `t` from a stopped
state, with the window focused, the user active and an active tab that is
allowed; any ticks; activation at `t + 5000` of a tab that is not allowed, by
id or by domain; any ticks; stop at `t + 8000`. The stored summary has
`durationMs = 8000`, `awayTimeMs = 3000`, `focusedTimeMs = 5000` and
`switchCount = 1`. The clock readings of the ticks are arbitrary. -/
theorem scenario_summary (t : Int) (env0 env1 : Chrome) (w0 : World) (newTab : TabId)
    (ticks1 ticks2 : List Int)
    (hstopped : w0.sessionState.isRunning = false)
    (hwindow : env0.windowFocused = true)
    (hidle : env0.idleQueryState = IdleState.active)
    (hactive : (startSession t env0 w0).sessionState.activeTabId ≠ none)
    (hallowed : isTabAllowed (startSession t env0 w0)
        (startSession t env0 w0).sessionState.activeTabId
        (startSession t env0 w0).sessionState.activeDomain = true)
    (hnew : isTabAllowed (startSession t env0 w0) (some newTab)
        (resolvedDomain env1 newTab) = false) :
    (stopSession (t + 8000) (t + 8000) (t + 8000)
      (runTicks ticks2
        (onActivated (t + 5000) (t + 5000) env1 newTab
          (runTicks ticks1 (startSession t env0 w0))))).sessionState.lastSessionSummary =
      some { durationMs := 8000, awayTimeMs := 3000, focusedTimeMs := 5000,
             switchCount := 1, endedAtMs := t + 8000 } := by
  have e1 := startSession_stopped t env0 w0 hstopped
  have hfoc : isFocusedState (startSession t env0 w0) = true := by
    unfold isFocusedState
    rw [hallowed, e1]
    simp [hwindow, hidle]
  exact scenario_core t (startSession t env0 w0) env1 newTab ticks1 ticks2
    (by rw [e1]) (by rw [e1]) (by rw [e1]) (by rw [e1]) (by rw [e1]) hfoc hactive hnew

/-- Witness for C8: start at `1000` on the allowed tab `7`, two ticks, tab `9`
activated at `6000`, three ticks, stop at `9000`. -/
theorem scenario_summary_witness :
    (stopSession 9000 9000 9000
      (runTicks [7000, 8000, 8500]
        (onActivated 6000 6000 exampleChrome 9
          (runTicks [2000, 3000]
            (startSession 1000 exampleChrome
              (addAllowedTab 7 initialWorld)))))).sessionState.lastSessionSummary =
      some { durationMs := 8000, awayTimeMs := 3000, focusedTimeMs := 5000,
             switchCount := 1, endedAtMs := 9000 } :=
  scenario_summary 1000 exampleChrome exampleChrome (addAllowedTab 7 initialWorld) 9
    [2000, 3000] [7000, 8000, 8500] (by decide) rfl rfl (by decide) (by decide) (by decide)

/-- C9. Stop then start: stopping a running session at `t1` and starting again at
`t2` yields a running state with `switchCount = 0`, `awayTimeMs = 0`,
`startTimeMs = lastTickMs = t2`, and with `lastSessionSummary` still the
summary that the stop stored. -/
theorem stop_then_start (t1 t2 : Int) (env : Chrome) (w : World)
    (hrun : w.sessionState.isRunning = true) :
    (startSession t2 env (stopSession t1 t1 t1 w)).sessionState.isRunning = true ∧
    (startSession t2 env (stopSession t1 t1 t1 w)).sessionState.switchCount = 0 ∧
    (startSession t2 env (stopSession t1 t1 t1 w)).sessionState.awayTimeMs = 0 ∧
    (startSession t2 env (stopSession t1 t1 t1 w)).sessionState.startTimeMs = some t2 ∧
    (startSession t2 env (stopSession t1 t1 t1 w)).sessionState.lastTickMs = some t2 ∧
    (startSession t2 env (stopSession t1 t1 t1 w)).sessionState.lastSessionSummary =
      (stopSession t1 t1 t1 w).sessionState.lastSessionSummary ∧
    (stopSession t1 t1 t1 w).sessionState.lastSessionSummary =
      some (summaryOf t1 t1 (updateTime t1 w).sessionState) := by
  have hs := stopSession_running t1 t1 t1 w hrun
  have hstopped : (stopSession t1 t1 t1 w).sessionState.isRunning = false := by rw [hs]
  have e := startSession_stopped t2 env (stopSession t1 t1 t1 w) hstopped
  refine ⟨?_, ?_, ?_, ?_, ?_, ?_, ?_⟩
  · rw [e]
  · rw [e]
  · rw [e]
  · rw [e]
  · rw [e]
  · rw [e]
  · rw [hs]

/-- Witness for C9: the running example world (2 switches, 500 ms away) stopped
at `9000` and started again at `12000`. -/
theorem stop_then_start_witness :
    (startSession 12000 exampleChrome
        (stopSession 9000 9000 9000 runningWorld)).sessionState.switchCount = 0 ∧
    (startSession 12000 exampleChrome
        (stopSession 9000 9000 9000 runningWorld)).sessionState.lastSessionSummary =
      some { durationMs := 8000, awayTimeMs := 500, focusedTimeMs := 7500,
             switchCount := 2, endedAtMs := 9000 } :=
  ⟨(stop_then_start 9000 12000 exampleChrome runningWorld rfl).2.1,
    ((stop_then_start 9000 12000 exampleChrome runningWorld rfl).2.2.2.2.2.1).trans
      (by decide)⟩

/-- C10. The window-focus, idle-state and tab-activation listeners close the
prior interval under the prior classification: in a running state whose
`lastTickMs` is `lt`, each of them, fired at event time `now`, leaves
`awayTimeMs` increased by `now - lt` exactly when `isFocusedState()` was false
before the event and unchanged when it was true, whatever the new value is,
sets `lastTickMs = now`, and holds the new `chromeFocused`, `idleState` or
`activeTabId` value. -/
theorem listeners_close_prior_interval (now lt : Int) (w : World)
    (hrun : w.sessionState.isRunning = true) (hlt : w.sessionState.lastTickMs = some lt) :
    (∀ windowId : Int,
      (onFocusChanged now now windowId w).sessionState.awayTimeMs =
        (if isFocusedState w then w.sessionState.awayTimeMs
          else w.sessionState.awayTimeMs + (now - lt)) ∧
      (onFocusChanged now now windowId w).sessionState.lastTickMs = some now ∧
      (onFocusChanged now now windowId w).sessionState.chromeFocused =
        decide (windowId ≠ WINDOW_ID_NONE)) ∧
    (∀ newState : IdleState,
      (onStateChanged now now newState w).sessionState.awayTimeMs =
        (if isFocusedState w then w.sessionState.awayTimeMs
          else w.sessionState.awayTimeMs + (now - lt)) ∧
      (onStateChanged now now newState w).sessionState.lastTickMs = some now ∧
      (onStateChanged now now newState w).sessionState.idleState = newState) ∧
    (∀ (env : Chrome) (tabId : TabId),
      (onActivated now now env tabId w).sessionState.awayTimeMs =
        (if isFocusedState w then w.sessionState.awayTimeMs
          else w.sessionState.awayTimeMs + (now - lt)) ∧
      (onActivated now now env tabId w).sessionState.lastTickMs = some now ∧
      (onActivated now now env tabId w).sessionState.activeTabId = some tabId) := by
  have eu := updateTime_running now lt w hrun hlt
  refine ⟨fun windowId => ?_, fun newState => ?_, fun env tabId => ?_⟩
  · rw [onFocusChanged_running now now windowId w hrun, eu]
    exact ⟨rfl, rfl, rfl⟩
  · rw [onStateChanged_running now now newState w hrun, eu]
    exact ⟨rfl, rfl, rfl⟩
  · rw [onActivated_running now now env tabId w hrun, eu]
    exact ⟨rfl, rfl, rfl⟩

/-- Witness for C10: in the running example world, focused and last accounted
at `4000`, a window blur at `9000` adds nothing for the interval before it, and
the next tick at `9500` counts only the 500 ms after it. -/
theorem listeners_close_prior_interval_witness :
    (onFocusChanged 9000 9000 WINDOW_ID_NONE runningWorld).sessionState.awayTimeMs = 500 ∧
    (onFocusChanged 9000 9000 WINDOW_ID_NONE runningWorld).sessionState.chromeFocused = false ∧
    (onTick 9500
      (onFocusChanged 9000 9000 WINDOW_ID_NONE runningWorld)).sessionState.awayTimeMs = 1000 :=
  ⟨(((listeners_close_prior_interval 9000 4000 runningWorld rfl rfl).1 WINDOW_ID_NONE).1).trans
      (by decide),
    ((listeners_close_prior_interval 9000 4000 runningWorld rfl rfl).1 WINDOW_ID_NONE).2.2,
    by decide⟩

end FocusCostTracker

/-! ## Tab removal and navigation -/

namespace FocusCostTracker

/-- When the closed tab is not the primary tab, the listener of
`chrome.tabs.onRemoved` never calls `updateTime`: in a running session
`awayTimeMs` keeps its value and `lastTickMs` is stamped with the second clock
reading, whatever the focus state was. -/
theorem onRemoved_not_primary (t1 t2 : Int) (tabId : TabId) (w : World)
    (hrun : w.sessionState.isRunning = true)
    (hp : w.sessionState.primaryTabId ≠ some tabId) :
    (onRemoved t1 t2 tabId w).sessionState.awayTimeMs = w.sessionState.awayTimeMs ∧
    (onRemoved t1 t2 tabId w).sessionState.lastTickMs = some t2 := by
  by_cases c1 : arrayIncludes w.sessionState.allowedTabIds (some tabId) = true <;>
    by_cases c3 : w.sessionState.activeTabId = some tabId <;>
    simp [onRemoved, saveSessionState, c1, c3, hrun, hp]

/-- The listener of `chrome.tabs.onUpdated` never touches the time accounting. -/
theorem onUpdated_time (env : Chrome) (tabId : TabId) (changeInfo : ChangeInfo) (w : World) :
    (onUpdated env tabId changeInfo w).sessionState.awayTimeMs = w.sessionState.awayTimeMs ∧
    (onUpdated env tabId changeInfo w).sessionState.lastTickMs = w.sessionState.lastTickMs := by
  obtain ⟨pu, pd, pt, ad, st, r, e⟩ := onUpdated_frame env tabId changeInfo w
  rw [e]
  exact ⟨rfl, rfl⟩

/-- The fields the listener of `chrome.tabs.onRemoved` never writes. -/
theorem onRemoved_frame (t1 t2 : Int) (tabId : TabId) (w : World) :
    (onRemoved t1 t2 tabId w).sessionState.isRunning = w.sessionState.isRunning ∧
    (onRemoved t1 t2 tabId w).sessionState.startTimeMs = w.sessionState.startTimeMs ∧
    (onRemoved t1 t2 tabId w).sessionState.switchCount = w.sessionState.switchCount ∧
    (onRemoved t1 t2 tabId w).sessionState.lockEnabled = w.sessionState.lockEnabled ∧
    (onRemoved t1 t2 tabId w).sessionState.lastSessionSummary =
      w.sessionState.lastSessionSummary ∧
    (onRemoved t1 t2 tabId w).sessionState.chromeFocused = w.sessionState.chromeFocused ∧
    (onRemoved t1 t2 tabId w).sessionState.idleState = w.sessionState.idleState := by
  by_cases c1 : arrayIncludes w.sessionState.allowedTabIds (some tabId) = true <;>
    by_cases c2 : w.sessionState.primaryTabId = some tabId <;>
    by_cases c3 : w.sessionState.activeTabId = some tabId <;>
    cases hrun : w.sessionState.isRunning <;>
    simp [onRemoved, saveSessionState, c1, c2, c3, hrun, updateTime_isRunning,
      updateTime_startTimeMs, updateTime_activeTabId, updateTime_switchCount,
      updateTime_lockEnabled, updateTime_lastSessionSummary, updateTime_chromeFocused,
      updateTime_idleState]

/-- The primary and active fields after the listener of
`chrome.tabs.onRemoved`. -/
theorem onRemoved_cleared (t1 t2 : Int) (tabId : TabId) (w : World) :
    (w.sessionState.primaryTabId = some tabId →
      (onRemoved t1 t2 tabId w).sessionState.primaryTabId = none ∧
      (onRemoved t1 t2 tabId w).sessionState.primaryUrl = none ∧
      (onRemoved t1 t2 tabId w).sessionState.primaryDomain = none ∧
      (onRemoved t1 t2 tabId w).sessionState.primaryTitle = none) ∧
    (w.sessionState.activeTabId = some tabId →
      (onRemoved t1 t2 tabId w).sessionState.activeTabId = none ∧
      (onRemoved t1 t2 tabId w).sessionState.activeDomain = none) := by
  by_cases c1 : arrayIncludes w.sessionState.allowedTabIds (some tabId) = true <;>
    by_cases c2 : w.sessionState.primaryTabId = some tabId <;>
    by_cases c3 : w.sessionState.activeTabId = some tabId <;>
    cases hrun : w.sessionState.isRunning <;>
    simp [onRemoved, saveSessionState, c1, c2, c3, hrun, updateTime_isRunning,
      updateTime_activeTabId]

/-- C11, evaluated on the code. In the blurred running world (not focused, last
accounted at `4000`, `500` ms away) closing the unrelated tab `9` at `9000`
leaves `awayTimeMs = 500` and stamps `lastTickMs = 9000`: the 5000 ms since the
last tick are attributed to nothing. In the focused world whose primary tab `7`
is the active tab, allowed by id, closing tab `7` at `9000` adds those 5000 ms
to `awayTimeMs`, because `updateTime` runs after the id has left the
allow-list. -/
theorem onRemoved_interval_misattributed :
    isFocusedState blurredWorld = false ∧
    blurredWorld.sessionState.lastTickMs = some 4000 ∧
    blurredWorld.sessionState.awayTimeMs = 500 ∧
    (onRemoved 9000 9000 9 blurredWorld).sessionState.awayTimeMs = 500 ∧
    (onRemoved 9000 9000 9 blurredWorld).sessionState.lastTickMs = some 9000 ∧
    isFocusedState primaryWorld = true ∧
    primaryWorld.sessionState.lastTickMs = some 4000 ∧
    primaryWorld.sessionState.awayTimeMs = 500 ∧
    (onRemoved 9000 9000 7 primaryWorld).sessionState.awayTimeMs = 5500 ∧
    (onRemoved 9000 9000 7 primaryWorld).sessionState.lastTickMs = some 9000 := by
  decide

/-- C12, evaluated on the code. In the focused world whose active tab `7` is
allowed by its domain only (last accounted at `4000`, `500` ms away), the
navigation of tab `7` to the disallowed `https://news.example/` changes
`activeDomain` but neither `awayTimeMs` nor `lastTickMs`, so the tick at `9500`
counts the whole 5500 ms since `4000` as away time, the focused part
included. -/
theorem onUpdated_interval_misattributed :
    isFocusedState domainWorld = true ∧
    domainWorld.sessionState.lastTickMs = some 4000 ∧
    domainWorld.sessionState.awayTimeMs = 500 ∧
    (onUpdated exampleChrome 7 { url := some "https://news.example/", title := none }
      domainWorld).sessionState.activeDomain = some "news.example" ∧
    (onUpdated exampleChrome 7 { url := some "https://news.example/", title := none }
      domainWorld).sessionState.awayTimeMs = 500 ∧
    (onUpdated exampleChrome 7 { url := some "https://news.example/", title := none }
      domainWorld).sessionState.lastTickMs = some 4000 ∧
    (onTick 9500
      (onUpdated exampleChrome 7 { url := some "https://news.example/", title := none }
        domainWorld)).sessionState.awayTimeMs = 6000 := by
  decide

end FocusCostTracker

/-! ## The allow-lists -/

namespace FocusCostTracker

theorem removeAllowedTab_sessionState (tabId : TabId) (w : World) :
    (removeAllowedTab tabId w).sessionState =
      { w.sessionState with
        allowedTabIds := w.sessionState.allowedTabIds.filter (fun id => decide (id ≠ tabId)) } :=
  rfl

theorem removeAllowedDomain_sessionState (domain : String) (w : World) :
    (removeAllowedDomain domain w).sessionState =
      { w.sessionState with
        allowedDomains := w.sessionState.allowedDomains.filter (fun d => decide (d ≠ domain)) } :=
  rfl

/-- Membership form of the allowed predicate, for use in proofs. -/
theorem isTabAllowed_true (w : World) (tabId : Option TabId) (domain : Option String)
    (h : isTabAllowed w tabId domain = true) :
    (∃ id : TabId, tabId = some id ∧ id ≠ 0 ∧ id ∈ w.sessionState.allowedTabIds) ∨
    (∃ d : String, domain = some d ∧ d ≠ "" ∧ d ∈ w.sessionState.allowedDomains) := by
  cases tabId <;> cases domain <;>
    simp_all [isTabAllowed, truthyNum, truthyStr, arrayIncludes]

/-- C13, as stated, fails: in the running world whose active tab `7` is a member
of `allowedTabIds` and whose domain `docs.example` is a member of
`allowedDomains`, `isFocusedState()` is still true after `removeAllowedTab(7)`. -/
theorem removeAllowedTab_still_focused :
    bothAllowedWorld.sessionState.isRunning = true ∧
    bothAllowedWorld.sessionState.activeTabId = some 7 ∧
    (7 : TabId) ∈ bothAllowedWorld.sessionState.allowedTabIds ∧
    isFocusedState (removeAllowedTab 7 bothAllowedWorld) = true := by
  decide

/-- C13, amended. In a running state whose active tab is a member of
`allowedTabIds` and whose `activeDomain` is not a non-empty member of
`allowedDomains`, `isFocusedState()` is false after
`removeAllowedTab(activeTabId)`. -/
theorem removeAllowedTab_unfocuses (w : World) (id : TabId)
    (_hrun : w.sessionState.isRunning = true)
    (hactive : w.sessionState.activeTabId = some id)
    (_hmem : id ∈ w.sessionState.allowedTabIds)
    (hdomain : ¬ ∃ d : String, w.sessionState.activeDomain = some d ∧ d ≠ "" ∧
      d ∈ w.sessionState.allowedDomains) :
    isFocusedState (removeAllowedTab id w) = false := by
  have hna : isTabAllowed (removeAllowedTab id w)
      (removeAllowedTab id w).sessionState.activeTabId
      (removeAllowedTab id w).sessionState.activeDomain = false := by
    rw [Bool.eq_false_iff]
    intro h
    have h := isTabAllowed_true _ _ _ h
    rw [removeAllowedTab_sessionState] at h
    rcases h with ⟨i, hi, _, him⟩ | ⟨d, hd, hne, hdm⟩
    · simp only [hactive, Option.some.injEq] at hi
      subst hi
      simp at him
    · exact hdomain ⟨d, hd, hne, hdm⟩
  unfold isFocusedState
  rw [hna]
  simp

/-- Witness for C13 amended: in the running example world the active tab `7` is
allowed by id only, and removing it un-focuses the session. -/
theorem removeAllowedTab_unfocuses_witness :
    isFocusedState runningWorld = true ∧
    isFocusedState (removeAllowedTab 7 runningWorld) = false :=
  ⟨by decide, removeAllowedTab_unfocuses runningWorld 7 rfl rfl (by decide) (by
    rintro ⟨d, hd, _, hm⟩
    simp [runningWorld, DEFAULT_STATE] at hm)⟩

theorem NodupInv_congr (s r : SessionState) (h : NodupInv s)
    (h1 : r.allowedTabIds = s.allowedTabIds) (h2 : r.allowedDomains = s.allowedDomains) :
    NodupInv r := by
  unfold NodupInv at *
  rw [h1, h2]
  exact h

theorem nodup_push {α : Type} (xs : List α) (x : α) (h : xs.Nodup) (hx : x ∉ xs) :
    (xs ++ [x]).Nodup := by
  rw [List.nodup_append]
  refine ⟨h, List.nodup_singleton x, ?_⟩
  intro a ha hb
  rw [List.mem_singleton] at hb
  subst hb
  exact hx ha

theorem updateTime_nodup (now : Int) (w : World) (h : NodupInv w.sessionState) :
    NodupInv (updateTime now w).sessionState :=
  NodupInv_congr _ _ h (updateTime_allowedTabIds now w) (updateTime_allowedDomains now w)

theorem onActivated_nodup (t1 t2 : Int) (env : Chrome) (tabId : TabId) (w : World)
    (h : NodupInv w.sessionState) :
    NodupInv (onActivated t1 t2 env tabId w).sessionState := by
  cases hrun : w.sessionState.isRunning with
  | false =>
    rw [onActivated_stopped t1 t2 env tabId w hrun]
    exact NodupInv_congr _ _ h rfl rfl
  | true =>
    rw [onActivated_running t1 t2 env tabId w hrun]
    exact NodupInv_congr _ _ h (updateTime_allowedTabIds t1 w) (updateTime_allowedDomains t1 w)

theorem onFocusChanged_nodup (t1 t2 : Int) (windowId : Int) (w : World)
    (h : NodupInv w.sessionState) :
    NodupInv (onFocusChanged t1 t2 windowId w).sessionState := by
  cases hrun : w.sessionState.isRunning with
  | false =>
    rw [onFocusChanged_stopped t1 t2 windowId w hrun]
    exact NodupInv_congr _ _ h rfl rfl
  | true =>
    rw [onFocusChanged_running t1 t2 windowId w hrun]
    exact NodupInv_congr _ _ h (updateTime_allowedTabIds t1 w) (updateTime_allowedDomains t1 w)

theorem onStateChanged_nodup (t1 t2 : Int) (newState : IdleState) (w : World)
    (h : NodupInv w.sessionState) :
    NodupInv (onStateChanged t1 t2 newState w).sessionState := by
  cases hrun : w.sessionState.isRunning with
  | false =>
    rw [onStateChanged_stopped t1 t2 newState w hrun]
    exact NodupInv_congr _ _ h rfl rfl
  | true =>
    rw [onStateChanged_running t1 t2 newState w hrun]
    exact NodupInv_congr _ _ h (updateTime_allowedTabIds t1 w) (updateTime_allowedDomains t1 w)

theorem onUpdated_nodup (env : Chrome) (tabId : TabId) (changeInfo : ChangeInfo) (w : World)
    (h : NodupInv w.sessionState) :
    NodupInv (onUpdated env tabId changeInfo w).sessionState := by
  obtain ⟨pu, pd, pt, ad, st, r, e⟩ := onUpdated_frame env tabId changeInfo w
  rw [e]
  exact NodupInv_congr _ _ h rfl rfl

/-- The allow-lists after the listener of `chrome.tabs.onRemoved`: the closed
id is filtered out of `allowedTabIds`, and `allowedDomains` is untouched. -/
theorem onRemoved_allowLists (t1 t2 : Int) (tabId : TabId) (w : World) :
    (onRemoved t1 t2 tabId w).sessionState.allowedTabIds =
      w.sessionState.allowedTabIds.filter (fun id => decide (id ≠ tabId)) ∧
    (onRemoved t1 t2 tabId w).sessionState.allowedDomains = w.sessionState.allowedDomains := by
  have hfilter : arrayIncludes w.sessionState.allowedTabIds (some tabId) = false →
      w.sessionState.allowedTabIds.filter (fun id => decide (id ≠ tabId)) =
        w.sessionState.allowedTabIds := by
    intro hc
    rw [List.filter_eq_self]
    intro a ha
    simp only [arrayIncludes, decide_eq_false_iff_not] at hc
    simp only [ne_eq, decide_not, Bool.not_eq_true', decide_eq_false_iff_not]
    intro hat
    exact hc (hat ▸ ha)
  cases c1 : arrayIncludes w.sessionState.allowedTabIds (some tabId) <;>
    by_cases c2 : w.sessionState.primaryTabId = some tabId <;>
    by_cases c3 : w.sessionState.activeTabId = some tabId <;>
    cases hrun : w.sessionState.isRunning <;>
    simp [onRemoved, saveSessionState, c1, c2, c3, hrun, updateTime_isRunning,
      updateTime_activeTabId, updateTime_allowedTabIds, updateTime_allowedDomains] <;>
    simpa using (hfilter c1).symm

theorem onRemoved_nodup (t1 t2 : Int) (tabId : TabId) (w : World)
    (h : NodupInv w.sessionState) :
    NodupInv (onRemoved t1 t2 tabId w).sessionState := by
  obtain ⟨e1, e2⟩ := onRemoved_allowLists t1 t2 tabId w
  unfold NodupInv at *
  rw [e1, e2]
  exact ⟨h.1.filter _, h.2⟩

theorem addAllowedTab_nodup (tabId : TabId) (w : World) (h : NodupInv w.sessionState) :
    NodupInv (addAllowedTab tabId w).sessionState := by
  unfold addAllowedTab
  split
  · rename_i hc
    simp only [arrayIncludes, Bool.not_eq_true', decide_eq_false_iff_not] at hc
    exact ⟨nodup_push _ _ h.1 hc, h.2⟩
  · exact h

theorem addAllowedDomain_nodup (domain : String) (w : World) (h : NodupInv w.sessionState) :
    NodupInv (addAllowedDomain domain w).sessionState := by
  unfold addAllowedDomain
  split
  · rename_i hc
    simp only [arrayIncludes, Bool.not_eq_true', decide_eq_false_iff_not] at hc
    exact ⟨h.1, nodup_push _ _ h.2 hc⟩
  · exact h

theorem setPrimaryToCurrentTab_nodup (env : Chrome) (w : World)
    (h : NodupInv w.sessionState) :
    NodupInv (setPrimaryToCurrentTab env w).sessionState := by
  unfold setPrimaryToCurrentTab
  split
  · exact h
  · rename_i tab rest _
    dsimp only [saveSessionState]
    split
    · rename_i hc
      simp only [arrayIncludes, Bool.not_eq_true', decide_eq_false_iff_not] at hc
      exact ⟨nodup_push _ _ h.1 hc, h.2⟩
    · exact NodupInv_congr _ _ h rfl rfl

theorem startSession_nodup (now : Int) (env : Chrome) (w : World)
    (h : NodupInv w.sessionState) :
    NodupInv (startSession now env w).sessionState := by
  cases hrun : w.sessionState.isRunning with
  | true => rw [startSession_running now env w hrun]; exact h
  | false =>
    rw [startSession_stopped now env w hrun]
    exact NodupInv_congr _ _ h rfl rfl

theorem stopSession_nodup (t1 t2 t3 : Int) (w : World) (h : NodupInv w.sessionState) :
    NodupInv (stopSession t1 t2 t3 w).sessionState := by
  cases hrun : w.sessionState.isRunning with
  | false => rw [stopSession_stopped t1 t2 t3 w hrun]; exact h
  | true =>
    rw [stopSession_running t1 t2 t3 w hrun]
    exact NodupInv_congr _ _ h (updateTime_allowedTabIds t1 w) (updateTime_allowedDomains t1 w)

theorem handleMessage_nodup (t1 t2 t3 : Int) (env : Chrome) (m : Message) (w : World)
    (h : NodupInv w.sessionState) :
    NodupInv (handleMessage t1 t2 t3 env m w).sessionState := by
  cases m with
  | setPrimaryToCurrentTab => exact setPrimaryToCurrentTab_nodup env w h
  | startSession => exact startSession_nodup t1 env w h
  | stopSession => exact stopSession_nodup t1 t2 t3 w h
  | getSessionState =>
    cases hrun : w.sessionState.isRunning with
    | false => simpa [handleMessage, hrun] using h
    | true =>
      simp only [handleMessage, hrun, if_true, saveSessionState]
      exact NodupInv_congr _ _ h (updateTime_allowedTabIds t1 w)
        (updateTime_allowedDomains t1 w)
  | setLockEnabled enabled => exact NodupInv_congr _ _ h rfl rfl
  | addAllowedTab tabId => exact addAllowedTab_nodup tabId w h
  | removeAllowedTab tabId => exact ⟨h.1.filter _, h.2⟩
  | addAllowedDomain domain => exact addAllowedDomain_nodup domain w h
  | removeAllowedDomain domain => exact ⟨h.1, h.2.filter _⟩
  | isLockedPage => exact h
  | unknown action => exact h

theorem Step_nodup (w v : World) (hs : Step w v) (h : NodupInv w.sessionState) :
    NodupInv v.sessionState := by
  cases hs with
  | message t1 t2 t3 env m => exact handleMessage_nodup t1 t2 t3 env m w h
  | activated t1 t2 env tabId => exact onActivated_nodup t1 t2 env tabId w h
  | updated env tabId changeInfo => exact onUpdated_nodup env tabId changeInfo w h
  | removed t1 t2 tabId => exact onRemoved_nodup t1 t2 tabId w h
  | focusChanged t1 t2 windowId => exact onFocusChanged_nodup t1 t2 windowId w h
  | stateChanged t1 t2 newState => exact onStateChanged_nodup t1 t2 newState w h
  | tick now => exact updateTime_nodup now w h

theorem Reachable_nodup (w : World) (h : Reachable w) : NodupInv w.sessionState := by
  induction h with
  | init w h0 =>
    rw [h0]
    exact ⟨List.nodup_nil, List.nodup_nil⟩
  | step w v _ hs ih => exact Step_nodup w v hs ih

/-- C14. The no-duplicates invariant: in every world reachable from
`DEFAULT_STATE` by any sequence of commands (among them `addAllowedTab`,
`removeAllowedTab`, `addAllowedDomain`, `removeAllowedDomain`,
`setPrimaryToCurrentTab`, `startSession`, `stopSession`), environment events
(among them tab removal) and ticks, `allowedTabIds` and `allowedDomains` each
contain no repeated element. -/
theorem allowLists_nodup (w : World) (h : Reachable w) :
    w.sessionState.allowedTabIds.Nodup ∧ w.sessionState.allowedDomains.Nodup :=
  Reachable_nodup w h

/-- Witness for C14: adding tab `7` twice, making the active tab `7` primary and
adding the domain `docs.example` twice leaves one entry each. -/
theorem allowLists_nodup_witness :
    (handleMessage 0 0 0 exampleChrome (Message.addAllowedDomain "docs.example")
      (handleMessage 0 0 0 exampleChrome (Message.addAllowedDomain "docs.example")
        (handleMessage 0 0 0 exampleChrome Message.setPrimaryToCurrentTab
          (handleMessage 0 0 0 exampleChrome (Message.addAllowedTab 7)
            (handleMessage 0 0 0 exampleChrome (Message.addAllowedTab 7)
              initialWorld))))).sessionState.allowedTabIds.Nodup :=
  (allowLists_nodup _
    (Reachable.step _ _
      (Reachable.step _ _
        (Reachable.step _ _
          (Reachable.step _ _
            (Reachable.step _ _ (Reachable.init initialWorld rfl)
              (Step.message 0 0 0 exampleChrome (Message.addAllowedTab 7) _))
            (Step.message 0 0 0 exampleChrome (Message.addAllowedTab 7) _))
          (Step.message 0 0 0 exampleChrome Message.setPrimaryToCurrentTab _))
        (Step.message 0 0 0 exampleChrome (Message.addAllowedDomain "docs.example") _))
      (Step.message 0 0 0 exampleChrome (Message.addAllowedDomain "docs.example") _))).1

/-- C15. Allow-list set semantics. `addAllowedTab(id)` leaves the whole world
unchanged when `id` is already in `allowedTabIds`, and otherwise appends `id`,
so that it becomes a member and every previous member is kept;
`removeAllowedTab(id)` leaves `allowedTabIds` unchanged when `id` is absent,
and in every case yields a list that does not contain `id` and keeps exactly
the other members. The same holds for `addAllowedDomain` and
`removeAllowedDomain` on `allowedDomains`. -/
theorem allowList_set_semantics (w : World) :
    (∀ id : TabId,
      (id ∈ w.sessionState.allowedTabIds → addAllowedTab id w = w) ∧
      (id ∉ w.sessionState.allowedTabIds →
        (addAllowedTab id w).sessionState.allowedTabIds = w.sessionState.allowedTabIds ++ [id] ∧
        id ∈ (addAllowedTab id w).sessionState.allowedTabIds ∧
        ∀ x ∈ w.sessionState.allowedTabIds, x ∈ (addAllowedTab id w).sessionState.allowedTabIds) ∧
      (id ∉ w.sessionState.allowedTabIds →
        (removeAllowedTab id w).sessionState.allowedTabIds = w.sessionState.allowedTabIds) ∧
      id ∉ (removeAllowedTab id w).sessionState.allowedTabIds ∧
      (∀ x : TabId, x ∈ (removeAllowedTab id w).sessionState.allowedTabIds ↔
        x ∈ w.sessionState.allowedTabIds ∧ x ≠ id)) ∧
    (∀ domain : String,
      (domain ∈ w.sessionState.allowedDomains → addAllowedDomain domain w = w) ∧
      (domain ∉ w.sessionState.allowedDomains →
        (addAllowedDomain domain w).sessionState.allowedDomains =
          w.sessionState.allowedDomains ++ [domain] ∧
        domain ∈ (addAllowedDomain domain w).sessionState.allowedDomains ∧
        ∀ x ∈ w.sessionState.allowedDomains,
          x ∈ (addAllowedDomain domain w).sessionState.allowedDomains) ∧
      (domain ∉ w.sessionState.allowedDomains →
        (removeAllowedDomain domain w).sessionState.allowedDomains =
          w.sessionState.allowedDomains) ∧
      domain ∉ (removeAllowedDomain domain w).sessionState.allowedDomains ∧
      (∀ x : String, x ∈ (removeAllowedDomain domain w).sessionState.allowedDomains ↔
        x ∈ w.sessionState.allowedDomains ∧ x ≠ domain)) := by
  refine ⟨fun id => ⟨?_, ?_, ?_, ?_, ?_⟩, fun domain => ⟨?_, ?_, ?_, ?_, ?_⟩⟩
  · intro h
    simp [addAllowedTab, arrayIncludes, h]
  · intro h
    have e : (addAllowedTab id w).sessionState.allowedTabIds =
        w.sessionState.allowedTabIds ++ [id] := by
      simp [addAllowedTab, arrayIncludes, h, saveSessionState]
    rw [e]
    exact ⟨rfl, by simp, fun x hx => List.mem_append_left _ hx⟩
  · intro h
    rw [removeAllowedTab_sessionState]
    show List.filter _ _ = _
    rw [List.filter_eq_self]
    intro a ha
    have : a ≠ id := fun hai => h (hai ▸ ha)
    simpa using this
  · rw [removeAllowedTab_sessionState]
    simp
  · intro x
    rw [removeAllowedTab_sessionState]
    simp
  · intro h
    simp [addAllowedDomain, arrayIncludes, h]
  · intro h
    have e : (addAllowedDomain domain w).sessionState.allowedDomains =
        w.sessionState.allowedDomains ++ [domain] := by
      simp [addAllowedDomain, arrayIncludes, h, saveSessionState]
    rw [e]
    exact ⟨rfl, by simp, fun x hx => List.mem_append_left _ hx⟩
  · intro h
    rw [removeAllowedDomain_sessionState]
    show List.filter _ _ = _
    rw [List.filter_eq_self]
    intro a ha
    have : a ≠ domain := fun hai => h (hai ▸ ha)
    simpa using this
  · rw [removeAllowedDomain_sessionState]
    simp
  · intro x
    rw [removeAllowedDomain_sessionState]
    simp

/-- Witness for C15 on the running example world, whose `allowedTabIds` is
`[7]`: adding `7` again changes nothing, adding `9` appends it, and removing
`7` from the result leaves `[9]`. -/
theorem allowList_set_semantics_witness :
    addAllowedTab 7 runningWorld = runningWorld ∧
    (addAllowedTab 9 runningWorld).sessionState.allowedTabIds = [7, 9] ∧
    (7 : TabId) ∉ (removeAllowedTab 7 (addAllowedTab 9 runningWorld)).sessionState.allowedTabIds :=
  ⟨((allowList_set_semantics runningWorld).1 7).1 (by decide),
    (((allowList_set_semantics runningWorld).1 9).2.1 (by decide)).1,
    ((allowList_set_semantics (addAllowedTab 9 runningWorld)).1 7).2.2.2.1⟩

end FocusCostTracker

/-! ## The focus lock -/

namespace FocusCostTracker

theorem stringIncludes_append (a p : String) : stringIncludes (a ++ p) p = true := by
  unfold stringIncludes
  rw [List.any_eq_true]
  refine ⟨p.toList, ?_, by simp⟩
  rw [List.mem_tails]
  simp only [String.toList, String.data_append]
  exact List.suffix_append _ _

theorem enforceFocusLock_off (env : Chrome) (tabId : TabId) (w : World)
    (h : w.sessionState.isRunning = false ∨ w.sessionState.lockEnabled = false) :
    enforceFocusLock env tabId w = w := by
  rcases h with h | h <;> simp [enforceFocusLock, h]

theorem enforceFocusLock_no_tab (env : Chrome) (tabId : TabId) (w : World)
    (h : env.tabsGet tabId = none) : enforceFocusLock env tabId w = w := by
  unfold enforceFocusLock
  split
  · rfl
  · rw [h]

theorem enforceFocusLock_no_url (env : Chrome) (tabId : TabId) (w : World) (tab : Tab)
    (hget : env.tabsGet tabId = some tab) (h : truthyStr tab.url = false) :
    enforceFocusLock env tabId w = w := by
  unfold enforceFocusLock
  split
  · rfl
  · rw [hget]
    simp [h]

/-- The decision of `enforceFocusLock` once the session runs with the lock on,
the lookup has succeeded and the tab has a non-empty URL. -/
theorem enforceFocusLock_on (env : Chrome) (tabId : TabId) (w : World) (tab : Tab)
    (url : String)
    (hrun : w.sessionState.isRunning = true) (hlock : w.sessionState.lockEnabled = true)
    (hget : env.tabsGet tabId = some tab) (hurl : tab.url = some url) (hne : url ≠ "") :
    enforceFocusLock env tabId w =
      if startsWith url "chrome://" || startsWith url "chrome-extension://" then w
      else if !isTabAllowed w (some tabId) (some (getDomainFromUrl env (some url))) then
        if !stringIncludes url "locked.html" then
          { w with redirects := w.redirects ++ [(tabId, env.getURL "locked.html")] }
        else w
      else w := by
  unfold enforceFocusLock
  simp only [hrun, hlock, hget, hurl, truthyStr, hne]
  simp
  intro h
  exact absurd h hne

/-- C16. Lock exemptions. `enforceFocusLock` changes nothing, so issues no
redirect, when `isRunning` or `lockEnabled` is false; and in every state it
issues none for a tab whose URL is absent or empty, starts with `chrome://` or
`chrome-extension://`, or contains `locked.html`, whether or not the tab is
allowed; in particular for the tab that shows the extension's `locked.html`
page, the URL `chrome.runtime.getURL('locked.html')`, which is the extension's
origin followed by that path. -/
theorem enforceFocusLock_exemptions (env : Chrome) (tabId : TabId) (w : World) :
    ((w.sessionState.isRunning = false ∨ w.sessionState.lockEnabled = false) →
      enforceFocusLock env tabId w = w) ∧
    (∀ tab : Tab, env.tabsGet tabId = some tab →
      (tab.url = none ∨ tab.url = some "" ∨
        ∃ url : String, tab.url = some url ∧
          (startsWith url "chrome://" = true ∨ startsWith url "chrome-extension://" = true ∨
            stringIncludes url "locked.html" = true)) →
      enforceFocusLock env tabId w = w) ∧
    (∀ (tab : Tab) (origin : String), env.tabsGet tabId = some tab →
      env.getURL "locked.html" = origin ++ "locked.html" →
      tab.url = some (env.getURL "locked.html") →
      enforceFocusLock env tabId w = w) := by
  have key : ∀ (tab : Tab) (url : String), env.tabsGet tabId = some tab → tab.url = some url →
      (startsWith url "chrome://" = true ∨ startsWith url "chrome-extension://" = true ∨
        stringIncludes url "locked.html" = true) → enforceFocusLock env tabId w = w := by
    intro tab url hget hurl hex
    by_cases hoff : w.sessionState.isRunning = false ∨ w.sessionState.lockEnabled = false
    · exact enforceFocusLock_off env tabId w hoff
    · have hrun : w.sessionState.isRunning = true := by
        cases h : w.sessionState.isRunning
        · exact absurd (Or.inl h) hoff
        · rfl
      have hlock : w.sessionState.lockEnabled = true := by
        cases h : w.sessionState.lockEnabled
        · exact absurd (Or.inr h) hoff
        · rfl
      by_cases hne : url = ""
      · exact enforceFocusLock_no_url env tabId w tab hget (by simp [hurl, truthyStr, hne])
      · rw [enforceFocusLock_on env tabId w tab url hrun hlock hget hurl hne]
        rcases hex with h | h | h
        · simp [h]
        · simp [h]
        · simp [h]
  refine ⟨enforceFocusLock_off env tabId w, ?_, ?_⟩
  · intro tab hget hex
    rcases hex with h | h | ⟨url, hurl, h⟩
    · exact enforceFocusLock_no_url env tabId w tab hget (by simp [h, truthyStr])
    · exact enforceFocusLock_no_url env tabId w tab hget (by simp [h, truthyStr])
    · exact key tab url hget hurl h
  · intro tab origin hget hapi hurl
    refine key tab _ hget hurl (Or.inr (Or.inr ?_))
    rw [hapi]
    exact stringIncludes_append origin "locked.html"

/-- Witness for C16 on the running example world with the lock on, where
neither tab `11` nor tab `12` is allowed: no redirect for the uncommitted tab
`11`, none for the lock-notice page in tab `12`, and none for the disallowed tab
`9` once the lock is off. -/
theorem enforceFocusLock_exemptions_witness :
    enforceFocusLock extendedChrome 11 lockedWorld = lockedWorld ∧
    enforceFocusLock extendedChrome 12 lockedWorld = lockedWorld ∧
    enforceFocusLock extendedChrome 9 runningWorld = runningWorld :=
  ⟨(enforceFocusLock_exemptions extendedChrome 11 lockedWorld).2.1
      { id := 11, url := some "", title := none } rfl (Or.inr (Or.inl rfl)),
    (enforceFocusLock_exemptions extendedChrome 12 lockedWorld).2.2
      { id := 12, url := some "chrome-extension://abcdefgh/locked.html", title := some "Locked" }
      "chrome-extension://abcdefgh/" rfl (by decide) rfl,
    (enforceFocusLock_exemptions extendedChrome 9 runningWorld).1 (Or.inr rfl)⟩

/-- C17, as stated, fails: the session runs with the lock on, the lookup of tab
`11` succeeds, its URL (the empty string of a tab that has not committed yet)
neither starts with a reserved scheme nor is the lock-notice page, neither the
tab id nor the URL's domain is in the allowed set, and yet no redirect is
issued. -/
theorem enforceFocusLock_empty_url_not_redirected :
    lockedWorld.sessionState.isRunning = true ∧
    lockedWorld.sessionState.lockEnabled = true ∧
    extendedChrome.tabsGet 11 = some { id := 11, url := some "", title := none } ∧
    startsWith "" "chrome://" = false ∧
    startsWith "" "chrome-extension://" = false ∧
    "" ≠ extendedChrome.getURL "locked.html" ∧
    (11 : TabId) ∉ lockedWorld.sessionState.allowedTabIds ∧
    getDomainFromUrl extendedChrome (some "") ∉ lockedWorld.sessionState.allowedDomains ∧
    (enforceFocusLock extendedChrome 11 lockedWorld).redirects = [] := by
  decide

/-- C17, amended. With `isRunning` and `lockEnabled` true and a successful
lookup of a tab with a URL: when the URL is non-empty, does not start with
`chrome://` or `chrome-extension://` and does not contain `locked.html`, and
`isTabAllowed(tab id, URL's domain)` is false (in particular when neither the
tab id nor the URL's domain is in the allowed set), `enforceFocusLock` issues
exactly one redirect, of that tab to `chrome.runtime.getURL('locked.html')`;
and whatever the URL, a tab for which `isTabAllowed` is true is not
redirected. -/
theorem enforceFocusLock_redirect (env : Chrome) (tabId : TabId) (w : World) (tab : Tab)
    (url : String)
    (hrun : w.sessionState.isRunning = true) (hlock : w.sessionState.lockEnabled = true)
    (hget : env.tabsGet tabId = some tab) (hurl : tab.url = some url) :
    ((url ≠ "" ∧ startsWith url "chrome://" = false ∧
        startsWith url "chrome-extension://" = false ∧
        stringIncludes url "locked.html" = false) →
      (isTabAllowed w (some tabId) (some (getDomainFromUrl env (some url))) = false →
        enforceFocusLock env tabId w =
          { w with redirects := w.redirects ++ [(tabId, env.getURL "locked.html")] }) ∧
      ((tabId ∉ w.sessionState.allowedTabIds ∧
          getDomainFromUrl env (some url) ∉ w.sessionState.allowedDomains) →
        enforceFocusLock env tabId w =
          { w with redirects := w.redirects ++ [(tabId, env.getURL "locked.html")] })) ∧
    (isTabAllowed w (some tabId) (some (getDomainFromUrl env (some url))) = true →
      enforceFocusLock env tabId w = w) := by
  refine ⟨?_, ?_⟩
  · rintro ⟨hne, h1, h2, h3⟩
    have hred : isTabAllowed w (some tabId) (some (getDomainFromUrl env (some url))) = false →
        enforceFocusLock env tabId w =
          { w with redirects := w.redirects ++ [(tabId, env.getURL "locked.html")] } := by
      intro hna
      rw [enforceFocusLock_on env tabId w tab url hrun hlock hget hurl hne]
      simp [h1, h2, h3, hna]
    refine ⟨hred, ?_⟩
    rintro ⟨hid, hdom⟩
    apply hred
    rw [Bool.eq_false_iff]
    intro ha
    rcases isTabAllowed_true _ _ _ ha with ⟨i, hi, _, him⟩ | ⟨d, hd, _, hdm⟩
    · simp only [Option.some.injEq] at hi
      exact hid (hi ▸ him)
    · simp only [Option.some.injEq] at hd
      exact hdom (hd ▸ hdm)
  · intro ha
    by_cases hne : url = ""
    · exact enforceFocusLock_no_url env tabId w tab hget (by simp [hurl, truthyStr, hne])
    · rw [enforceFocusLock_on env tabId w tab url hrun hlock hget hurl hne]
      simp [ha]

/-- Witness for C17 amended: with the lock on, the disallowed tab `9` on
`https://news.example/` is redirected to the lock-notice page, and the allowed
tab `7` is not. -/
theorem enforceFocusLock_redirect_witness :
    enforceFocusLock exampleChrome 9 lockedWorld =
      { lockedWorld with
        redirects := [(9, "chrome-extension://abcdefgh/locked.html")] } ∧
    enforceFocusLock exampleChrome 7 lockedWorld = lockedWorld :=
  ⟨((enforceFocusLock_redirect exampleChrome 9 lockedWorld
      { id := 9, url := some "https://news.example/", title := some "News" }
      "https://news.example/" rfl rfl rfl rfl).1
        ⟨by decide, by decide, by decide, by decide⟩).1 (by decide),
    (enforceFocusLock_redirect exampleChrome 7 lockedWorld
      { id := 7, url := some "https://docs.example/a", title := some "Docs" }
      "https://docs.example/a" rfl rfl rfl rfl).2 (by decide)⟩

end FocusCostTracker

/-! ## Loading the persisted session -/

namespace FocusCostTracker

theorem loadSessionState_running (now : Int) (w : World) (snapshot : SessionState)
    (hst : w.storage = some snapshot) (hrun : snapshot.isRunning = true) :
    (loadSessionState now w).sessionState = { snapshot with lastTickMs := some now } := by
  unfold loadSessionState startTicker
  rw [hst]
  cases ht : w.tickerInterval <;> simp [hrun, saveSessionState, ht]

theorem loadSessionState_stopped (now : Int) (w : World) (snapshot : SessionState)
    (hst : w.storage = some snapshot) (hrun : snapshot.isRunning = false) :
    loadSessionState now w = { w with sessionState := snapshot } := by
  unfold loadSessionState
  rw [hst]
  simp [hrun]

/-- C18. Load on init does not attribute unloaded time. When the storage holds
a snapshot with `isRunning` true, `loadSessionState` at init time `now` yields
the snapshot with `lastTickMs = now`: `awayTimeMs`, `switchCount` and
`startTimeMs` are the snapshot's, whatever its `lastTickMs` was; a following
`updateTime` at time `t` then adds `t - now` to `awayTimeMs` when the loaded
state is not focused and nothing when it is, hence at most `t - now` when
`now ≤ t`. A snapshot with `isRunning` false is loaded with no field
changed. -/
theorem loadSessionState_restamps (now : Int) (w : World) (snapshot : SessionState)
    (hst : w.storage = some snapshot) :
    (snapshot.isRunning = true →
      (loadSessionState now w).sessionState = { snapshot with lastTickMs := some now } ∧
      (loadSessionState now w).sessionState.lastTickMs = some now ∧
      (loadSessionState now w).sessionState.awayTimeMs = snapshot.awayTimeMs ∧
      (loadSessionState now w).sessionState.switchCount = snapshot.switchCount ∧
      (loadSessionState now w).sessionState.startTimeMs = snapshot.startTimeMs ∧
      (∀ t : Int,
        (updateTime t (loadSessionState now w)).sessionState.awayTimeMs =
          (if isFocusedState (loadSessionState now w) then snapshot.awayTimeMs
            else snapshot.awayTimeMs + (t - now)) ∧
        (now ≤ t →
          (updateTime t (loadSessionState now w)).sessionState.awayTimeMs
            ≤ snapshot.awayTimeMs + (t - now)))) ∧
    (snapshot.isRunning = false → (loadSessionState now w).sessionState = snapshot) := by
  refine ⟨fun hrun => ?_, fun hrun => ?_⟩
  · have e := loadSessionState_running now w snapshot hst hrun
    have hr : (loadSessionState now w).sessionState.isRunning = true := by rw [e]; exact hrun
    have hl : (loadSessionState now w).sessionState.lastTickMs = some now := by rw [e]
    have ha : (loadSessionState now w).sessionState.awayTimeMs = snapshot.awayTimeMs := by
      rw [e]
    refine ⟨e, hl, ha, by rw [e], by rw [e], fun t => ?_⟩
    have hu : (updateTime t (loadSessionState now w)).sessionState.awayTimeMs =
        (if isFocusedState (loadSessionState now w) then snapshot.awayTimeMs
          else snapshot.awayTimeMs + (t - now)) := by
      rw [updateTime_running t now _ hr hl]
      simp [accounted, ha]
    refine ⟨hu, fun hle => ?_⟩
    rw [hu]
    split
    · linarith
    · exact le_refl _
  · rw [loadSessionState_stopped now w snapshot hst hrun]

/-- Witness for C18: the running example session (last accounted at `4000`,
`500` ms away, focused) is reloaded at `60000`; the tick at `61000` adds
nothing, and the stored 56 seconds of absence are not counted. -/
theorem loadSessionState_restamps_witness :
    (loadSessionState 60000 restartedWorld).sessionState.lastTickMs = some 60000 ∧
    (loadSessionState 60000 restartedWorld).sessionState.awayTimeMs = 500 ∧
    (updateTime 61000 (loadSessionState 60000 restartedWorld)).sessionState.awayTimeMs
      ≤ 500 + (61000 - 60000) :=
  ⟨((loadSessionState_restamps 60000 restartedWorld runningWorld.sessionState rfl).1 rfl).2.1,
    ((loadSessionState_restamps 60000 restartedWorld runningWorld.sessionState rfl).1 rfl).2.2.1,
    (((loadSessionState_restamps 60000 restartedWorld runningWorld.sessionState rfl).1
      rfl).2.2.2.2.2 61000).2 (by decide)⟩

end FocusCostTracker

/-! ## Frame conditions of tab removal and of the session commands -/

namespace FocusCostTracker

/-- C19. Context-closed effects: after the listener of `chrome.tabs.onRemoved`
for tab `tabId`, in any state and at any clock readings, `tabId` is not a
member of `allowedTabIds`; if it was the primary tab then `primaryTabId`,
`primaryUrl`, `primaryDomain` and `primaryTitle` are all `null`; if it was the
active tab then `activeTabId` and `activeDomain` are `null`; and `isRunning`,
`startTimeMs`, `switchCount`, `allowedDomains`, `lockEnabled` and
`lastSessionSummary` are unchanged, so closing the primary tab does not stop
the session. -/
theorem onRemoved_effects (t1 t2 : Int) (tabId : TabId) (w : World) :
    tabId ∉ (onRemoved t1 t2 tabId w).sessionState.allowedTabIds ∧
    (w.sessionState.primaryTabId = some tabId →
      (onRemoved t1 t2 tabId w).sessionState.primaryTabId = none ∧
      (onRemoved t1 t2 tabId w).sessionState.primaryUrl = none ∧
      (onRemoved t1 t2 tabId w).sessionState.primaryDomain = none ∧
      (onRemoved t1 t2 tabId w).sessionState.primaryTitle = none) ∧
    (w.sessionState.activeTabId = some tabId →
      (onRemoved t1 t2 tabId w).sessionState.activeTabId = none ∧
      (onRemoved t1 t2 tabId w).sessionState.activeDomain = none) ∧
    (onRemoved t1 t2 tabId w).sessionState.isRunning = w.sessionState.isRunning ∧
    (onRemoved t1 t2 tabId w).sessionState.startTimeMs = w.sessionState.startTimeMs ∧
    (onRemoved t1 t2 tabId w).sessionState.switchCount = w.sessionState.switchCount ∧
    (onRemoved t1 t2 tabId w).sessionState.allowedDomains = w.sessionState.allowedDomains ∧
    (onRemoved t1 t2 tabId w).sessionState.lockEnabled = w.sessionState.lockEnabled ∧
    (onRemoved t1 t2 tabId w).sessionState.lastSessionSummary =
      w.sessionState.lastSessionSummary := by
  obtain ⟨e1, e2⟩ := onRemoved_allowLists t1 t2 tabId w
  obtain ⟨f1, f2, f3, f4, f5, _, _⟩ := onRemoved_frame t1 t2 tabId w
  obtain ⟨g1, g2⟩ := onRemoved_cleared t1 t2 tabId w
  refine ⟨?_, g1, g2, f1, f2, f3, e2, f4, f5⟩
  rw [e1]
  simp

/-- Witness for C19: closing the primary, active and allowed tab `7` of a
running session clears the primary and the active fields and empties the
allow-list, and the session keeps running. -/
theorem onRemoved_effects_witness :
    (onRemoved 9000 9000 7 primaryWorld).sessionState.primaryTabId = none ∧
    (onRemoved 9000 9000 7 primaryWorld).sessionState.activeTabId = none ∧
    (7 : TabId) ∉ (onRemoved 9000 9000 7 primaryWorld).sessionState.allowedTabIds ∧
    (onRemoved 9000 9000 7 primaryWorld).sessionState.isRunning = true :=
  ⟨((onRemoved_effects 9000 9000 7 primaryWorld).2.1 rfl).1,
    ((onRemoved_effects 9000 9000 7 primaryWorld).2.2.1 rfl).1,
    (onRemoved_effects 9000 9000 7 primaryWorld).1,
    (onRemoved_effects 9000 9000 7 primaryWorld).2.2.2.1⟩

/-- The configuration fields, that is the primary tab, the two allow-lists and
the lock toggle, are not written by `startSession`. -/
theorem startSession_config (now : Int) (env : Chrome) (w : World) :
    (startSession now env w).sessionState.primaryTabId = w.sessionState.primaryTabId ∧
    (startSession now env w).sessionState.primaryUrl = w.sessionState.primaryUrl ∧
    (startSession now env w).sessionState.primaryDomain = w.sessionState.primaryDomain ∧
    (startSession now env w).sessionState.primaryTitle = w.sessionState.primaryTitle ∧
    (startSession now env w).sessionState.allowedTabIds = w.sessionState.allowedTabIds ∧
    (startSession now env w).sessionState.allowedDomains = w.sessionState.allowedDomains ∧
    (startSession now env w).sessionState.lockEnabled = w.sessionState.lockEnabled := by
  cases hrun : w.sessionState.isRunning with
  | true =>
    rw [startSession_running now env w hrun]
    exact ⟨rfl, rfl, rfl, rfl, rfl, rfl, rfl⟩
  | false =>
    rw [startSession_stopped now env w hrun]
    exact ⟨rfl, rfl, rfl, rfl, rfl, rfl, rfl⟩

/-- The configuration fields are not written by `stopSession`. -/
theorem stopSession_config (t1 t2 t3 : Int) (w : World) :
    (stopSession t1 t2 t3 w).sessionState.primaryTabId = w.sessionState.primaryTabId ∧
    (stopSession t1 t2 t3 w).sessionState.primaryUrl = w.sessionState.primaryUrl ∧
    (stopSession t1 t2 t3 w).sessionState.primaryDomain = w.sessionState.primaryDomain ∧
    (stopSession t1 t2 t3 w).sessionState.primaryTitle = w.sessionState.primaryTitle ∧
    (stopSession t1 t2 t3 w).sessionState.allowedTabIds = w.sessionState.allowedTabIds ∧
    (stopSession t1 t2 t3 w).sessionState.allowedDomains = w.sessionState.allowedDomains ∧
    (stopSession t1 t2 t3 w).sessionState.lockEnabled = w.sessionState.lockEnabled := by
  cases hrun : w.sessionState.isRunning with
  | false =>
    rw [stopSession_stopped t1 t2 t3 w hrun]
    exact ⟨rfl, rfl, rfl, rfl, rfl, rfl, rfl⟩
  | true =>
    rw [stopSession_running t1 t2 t3 w hrun]
    exact ⟨updateTime_primaryTabId t1 w, updateTime_primaryUrl t1 w,
      updateTime_primaryDomain t1 w, updateTime_primaryTitle t1 w,
      updateTime_allowedTabIds t1 w, updateTime_allowedDomains t1 w,
      updateTime_lockEnabled t1 w⟩

/-- C20. Configuration survives sessions: in every state and at any clock
readings, `startSession` and `stopSession` each leave `primaryTabId`,
`primaryDomain`, `primaryTitle`, `allowedTabIds`, `allowedDomains` and
`lockEnabled` unchanged, and the command `setLockEnabled(b)` changes no field
of `sessionState` other than `lockEnabled`, which becomes `b`. -/
theorem configuration_survives (t1 t2 t3 : Int) (env : Chrome) (b : Bool) (w : World) :
    ((startSession t1 env w).sessionState.primaryTabId = w.sessionState.primaryTabId ∧
      (startSession t1 env w).sessionState.primaryDomain = w.sessionState.primaryDomain ∧
      (startSession t1 env w).sessionState.primaryTitle = w.sessionState.primaryTitle ∧
      (startSession t1 env w).sessionState.allowedTabIds = w.sessionState.allowedTabIds ∧
      (startSession t1 env w).sessionState.allowedDomains = w.sessionState.allowedDomains ∧
      (startSession t1 env w).sessionState.lockEnabled = w.sessionState.lockEnabled) ∧
    ((stopSession t1 t2 t3 w).sessionState.primaryTabId = w.sessionState.primaryTabId ∧
      (stopSession t1 t2 t3 w).sessionState.primaryDomain = w.sessionState.primaryDomain ∧
      (stopSession t1 t2 t3 w).sessionState.primaryTitle = w.sessionState.primaryTitle ∧
      (stopSession t1 t2 t3 w).sessionState.allowedTabIds = w.sessionState.allowedTabIds ∧
      (stopSession t1 t2 t3 w).sessionState.allowedDomains = w.sessionState.allowedDomains ∧
      (stopSession t1 t2 t3 w).sessionState.lockEnabled = w.sessionState.lockEnabled) ∧
    (handleMessage t1 t2 t3 env (Message.setLockEnabled b) w).sessionState =
      { w.sessionState with lockEnabled := b } := by
  obtain ⟨a1, _, a3, a4, a5, a6, a7⟩ := startSession_config t1 env w
  obtain ⟨b1, _, b3, b4, b5, b6, b7⟩ := stopSession_config t1 t2 t3 w
  exact ⟨⟨a1, a3, a4, a5, a6, a7⟩, ⟨b1, b3, b4, b5, b6, b7⟩, rfl⟩

end FocusCostTracker

/-! ## The switch count outside tab activations -/

namespace FocusCostTracker

theorem getSessionState_sessionState (t1 t2 t3 : Int) (env : Chrome) (w : World)
    (hrun : w.sessionState.isRunning = true) :
    (handleMessage t1 t2 t3 env Message.getSessionState w).sessionState =
      { (updateTime t1 w).sessionState with lastTickMs := some t2 } := by
  simp [handleMessage, hrun, saveSessionState]

theorem getSessionState_stopped (t1 t2 t3 : Int) (env : Chrome) (w : World)
    (hrun : w.sessionState.isRunning = false) :
    handleMessage t1 t2 t3 env Message.getSessionState w = w := by
  simp [handleMessage, hrun]

/-- A `QuietEvent` changes neither the running flag nor the switch count. -/
theorem applyQuiet_frame (e : QuietEvent) (w : World) :
    (applyQuiet e w).sessionState.isRunning = w.sessionState.isRunning ∧
    (applyQuiet e w).sessionState.switchCount = w.sessionState.switchCount := by
  cases e with
  | focusChanged t1 t2 windowId =>
    cases hrun : w.sessionState.isRunning with
    | false =>
      simp only [applyQuiet]
      rw [onFocusChanged_stopped t1 t2 windowId w hrun]
      exact ⟨hrun, rfl⟩
    | true =>
      simp only [applyQuiet]
      rw [onFocusChanged_running t1 t2 windowId w hrun]
      exact ⟨(updateTime_isRunning t1 w).trans hrun, updateTime_switchCount t1 w⟩
  | stateChanged t1 t2 newState =>
    cases hrun : w.sessionState.isRunning with
    | false =>
      simp only [applyQuiet]
      rw [onStateChanged_stopped t1 t2 newState w hrun]
      exact ⟨hrun, rfl⟩
    | true =>
      simp only [applyQuiet]
      rw [onStateChanged_running t1 t2 newState w hrun]
      exact ⟨(updateTime_isRunning t1 w).trans hrun, updateTime_switchCount t1 w⟩
  | updated env tabId changeInfo =>
    obtain ⟨pu, pd, pt, ad, st, r, e⟩ := onUpdated_frame env tabId changeInfo w
    simp only [applyQuiet]
    rw [e]
    exact ⟨rfl, rfl⟩
  | removed t1 t2 tabId =>
    obtain ⟨f1, _, f3, _⟩ := onRemoved_frame t1 t2 tabId w
    exact ⟨f1, f3⟩
  | tick now =>
    exact ⟨updateTime_isRunning now w, updateTime_switchCount now w⟩
  | getSessionState t1 t2 t3 env =>
    cases hrun : w.sessionState.isRunning with
    | false =>
      simp only [applyQuiet]
      rw [getSessionState_stopped t1 t2 t3 env w hrun]
      exact ⟨hrun, rfl⟩
    | true =>
      simp only [applyQuiet]
      rw [getSessionState_sessionState t1 t2 t3 env w hrun]
      exact ⟨(updateTime_isRunning t1 w).trans hrun, updateTime_switchCount t1 w⟩

theorem runQuiet_frame (events : List QuietEvent) (w : World) :
    (runQuiet events w).sessionState.isRunning = w.sessionState.isRunning ∧
    (runQuiet events w).sessionState.switchCount = w.sessionState.switchCount := by
  induction events generalizing w with
  | nil => exact ⟨rfl, rfl⟩
  | cons e rest ih =>
    have h1 := applyQuiet_frame e w
    have h2 := ih (applyQuiet e w)
    have e0 : runQuiet (e :: rest) w = runQuiet rest (applyQuiet e w) := rfl
    rw [e0]
    exact ⟨h2.1.trans h1.1, h2.2.trans h1.2⟩

/-- C21. The switch count is untouched by non-activation events: in every
state, running or not, the listeners of window focus changes, idle state
changes, tab updates and tab removals, the ticker and the command
`getSessionState` leave `switchCount` unchanged, at any clock readings; so a
session started from a stopped state and reached only by such events stores a
summary with `switchCount = 0` when it is stopped. -/
theorem switchCount_untouched (w : World) :
    (∀ (t1 t2 : Int) (windowId : Int),
      (onFocusChanged t1 t2 windowId w).sessionState.switchCount =
        w.sessionState.switchCount) ∧
    (∀ (t1 t2 : Int) (newState : IdleState),
      (onStateChanged t1 t2 newState w).sessionState.switchCount =
        w.sessionState.switchCount) ∧
    (∀ (env : Chrome) (tabId : TabId) (changeInfo : ChangeInfo),
      (onUpdated env tabId changeInfo w).sessionState.switchCount =
        w.sessionState.switchCount) ∧
    (∀ (t1 t2 : Int) (tabId : TabId),
      (onRemoved t1 t2 tabId w).sessionState.switchCount = w.sessionState.switchCount) ∧
    (∀ now : Int, (onTick now w).sessionState.switchCount = w.sessionState.switchCount) ∧
    (∀ (t1 t2 t3 : Int) (env : Chrome),
      (handleMessage t1 t2 t3 env Message.getSessionState w).sessionState.switchCount =
        w.sessionState.switchCount) ∧
    (∀ (t0 t1 t2 t3 : Int) (env : Chrome) (events : List QuietEvent),
      w.sessionState.isRunning = false →
      ∃ sm : SessionSummary,
        (stopSession t1 t2 t3
          (runQuiet events (startSession t0 env w))).sessionState.lastSessionSummary =
            some sm ∧
        sm.switchCount = 0) := by
  refine ⟨fun t1 t2 windowId => (applyQuiet_frame (QuietEvent.focusChanged t1 t2 windowId) w).2,
    fun t1 t2 newState => (applyQuiet_frame (QuietEvent.stateChanged t1 t2 newState) w).2,
    fun env tabId changeInfo => (applyQuiet_frame (QuietEvent.updated env tabId changeInfo) w).2,
    fun t1 t2 tabId => (applyQuiet_frame (QuietEvent.removed t1 t2 tabId) w).2,
    fun now => (applyQuiet_frame (QuietEvent.tick now) w).2,
    fun t1 t2 t3 env => (applyQuiet_frame (QuietEvent.getSessionState t1 t2 t3 env) w).2,
    ?_⟩
  intro t0 t1 t2 t3 env events hstopped
  have e1 := startSession_stopped t0 env w hstopped
  obtain ⟨q1, q2⟩ := runQuiet_frame events (startSession t0 env w)
  have hrun : (runQuiet events (startSession t0 env w)).sessionState.isRunning = true := by
    rw [q1, e1]
  have hsc : (runQuiet events (startSession t0 env w)).sessionState.switchCount = 0 := by
    rw [q2, e1]
  refine ⟨summaryOf t2 t3
    (updateTime t1 (runQuiet events (startSession t0 env w))).sessionState, ?_, ?_⟩
  · rw [stopSession_running t1 t2 t3 _ hrun]
  · show (updateTime t1 _).sessionState.switchCount = 0
    rw [updateTime_switchCount, hsc]

/-- Witness for C21: a session on the allowed tab `7` from `1000` to `9000`,
with the window blurred from `3000` to `6000` and a tick at `7000`, stores
3000 ms of away time and `switchCount = 0`. -/
theorem switchCount_untouched_witness :
    (∃ sm : SessionSummary,
      (stopSession 9000 9000 9000
        (runQuiet
          [QuietEvent.focusChanged 3000 3000 WINDOW_ID_NONE,
           QuietEvent.focusChanged 6000 6000 1,
           QuietEvent.tick 7000]
          (startSession 1000 exampleChrome
            (addAllowedTab 7 initialWorld)))).sessionState.lastSessionSummary = some sm ∧
      sm.switchCount = 0) ∧
    (stopSession 9000 9000 9000
      (runQuiet
        [QuietEvent.focusChanged 3000 3000 WINDOW_ID_NONE,
         QuietEvent.focusChanged 6000 6000 1,
         QuietEvent.tick 7000]
        (startSession 1000 exampleChrome
          (addAllowedTab 7 initialWorld)))).sessionState.lastSessionSummary =
      some { durationMs := 8000, awayTimeMs := 3000, focusedTimeMs := 5000,
             switchCount := 0, endedAtMs := 9000 } :=
  ⟨(switchCount_untouched (addAllowedTab 7 initialWorld)).2.2.2.2.2.2
      1000 9000 9000 9000 exampleChrome _ (by decide),
    by decide⟩

end FocusCostTracker

/-! ## Away time under a monotone clock -/

namespace FocusCostTracker

theorem advances_of_stopped (c : Int) (s r : SessionState) (h : r.isRunning = false) :
    Advances c s r := by
  refine ⟨fun hr => ?_, fun _ hr => ?_⟩
  · rw [h] at hr; cases hr
  · rw [h] at hr; cases hr

theorem advances_of_same (c c' : Int) (s r : SessionState) (h : AwayInv c s) (hc : c ≤ c')
    (h1 : r.isRunning = s.isRunning) (h2 : r.startTimeMs = s.startTimeMs)
    (h3 : r.lastTickMs = s.lastTickMs) (h4 : r.awayTimeMs = s.awayTimeMs) :
    Advances c' s r := by
  refine ⟨fun hr => ?_, fun _ _ => by rw [h4]⟩
  obtain ⟨st, lt, e1, e2, b1, b2, b3⟩ := h (h1 ▸ hr)
  exact ⟨st, lt, by rw [h2, e1], by rw [h3, e2], by rw [h4]; exact b1, by rw [h4]; exact b2,
    le_trans b3 hc⟩

/-- A flush at a clock value not before the last reading keeps the bound and
does not decrease the away time. -/
theorem updateTime_advance (c t : Int) (w : World) (h : AwayInv c w.sessionState)
    (hct : c ≤ t) :
    AwayInv t (updateTime t w).sessionState ∧
    w.sessionState.awayTimeMs ≤ (updateTime t w).sessionState.awayTimeMs := by
  cases hrun : w.sessionState.isRunning with
  | false =>
    rw [updateTime_not_running t w hrun]
    exact ⟨fun hr => (by rw [hrun] at hr; cases hr), le_refl _⟩
  | true =>
    obtain ⟨st, lt, e1, e2, b1, b2, b3⟩ := h hrun
    rw [updateTime_running t lt w hrun e2]
    have hlt : lt ≤ t := le_trans b3 hct
    cases hf : isFocusedState w
    · refine ⟨fun _ => ⟨st, t, e1, rfl, ?_, ?_, le_refl _⟩, ?_⟩
      · simp only [accounted, hf]
        simp only [Bool.false_eq_true, if_false]
        linarith
      · simp only [accounted, hf]
        simp only [Bool.false_eq_true, if_false]
        linarith
      · simp only [accounted, hf]
        simp only [Bool.false_eq_true, if_false]
        linarith
    · refine ⟨fun _ => ⟨st, t, e1, rfl, ?_, ?_, le_refl _⟩, ?_⟩
      · simp only [accounted, hf, if_true]
        exact b1
      · simp only [accounted, hf, if_true]
        linarith
      · simp only [accounted, hf, if_true]
        exact le_refl _

/-- A flush at `t1` followed by a stamp of `lastTickMs` at `t2`, as the
listeners do it in a running session. -/
theorem flush_restamp_advances (c t1 t2 : Int) (w : World) (r : SessionState)
    (h : AwayInv c w.sessionState) (h1 : c ≤ t1) (h2 : t1 ≤ t2)
    (hr : r.isRunning = (updateTime t1 w).sessionState.isRunning)
    (hs : r.startTimeMs = (updateTime t1 w).sessionState.startTimeMs)
    (ha : r.awayTimeMs = (updateTime t1 w).sessionState.awayTimeMs)
    (hl : r.lastTickMs = some t2) :
    Advances t2 w.sessionState r := by
  obtain ⟨hu, hmono⟩ := updateTime_advance c t1 w h h1
  refine ⟨fun hrun => ?_, fun _ _ => by rw [ha]; exact hmono⟩
  obtain ⟨st, lt, e1, e2, b1, b2, b3⟩ := hu (hr ▸ hrun)
  exact ⟨st, t2, by rw [hs, e1], hl, by rw [ha]; exact b1, by rw [ha]; linarith, le_refl _⟩

theorem onTick_advances (c t : Int) (w : World) (h : AwayInv c w.sessionState)
    (hct : c ≤ t) : Advances t w.sessionState (onTick t w).sessionState := by
  obtain ⟨hu, hmono⟩ := updateTime_advance c t w h hct
  exact ⟨hu, fun _ _ => hmono⟩

theorem onFocusChanged_advances (c t1 t2 : Int) (windowId : Int) (w : World)
    (h : AwayInv c w.sessionState) (h1 : c ≤ t1) (h2 : t1 ≤ t2) :
    Advances t2 w.sessionState (onFocusChanged t1 t2 windowId w).sessionState := by
  cases hrun : w.sessionState.isRunning with
  | false =>
    rw [onFocusChanged_stopped t1 t2 windowId w hrun]
    exact advances_of_stopped _ _ _ hrun
  | true =>
    rw [onFocusChanged_running t1 t2 windowId w hrun]
    exact flush_restamp_advances c t1 t2 w _ h h1 h2 rfl rfl rfl rfl

theorem onStateChanged_advances (c t1 t2 : Int) (newState : IdleState) (w : World)
    (h : AwayInv c w.sessionState) (h1 : c ≤ t1) (h2 : t1 ≤ t2) :
    Advances t2 w.sessionState (onStateChanged t1 t2 newState w).sessionState := by
  cases hrun : w.sessionState.isRunning with
  | false =>
    rw [onStateChanged_stopped t1 t2 newState w hrun]
    exact advances_of_stopped _ _ _ hrun
  | true =>
    rw [onStateChanged_running t1 t2 newState w hrun]
    exact flush_restamp_advances c t1 t2 w _ h h1 h2 rfl rfl rfl rfl

theorem onActivated_advances (c t1 t2 : Int) (env : Chrome) (tabId : TabId) (w : World)
    (h : AwayInv c w.sessionState) (h1 : c ≤ t1) (h2 : t1 ≤ t2) :
    Advances t2 w.sessionState (onActivated t1 t2 env tabId w).sessionState := by
  cases hrun : w.sessionState.isRunning with
  | false =>
    rw [onActivated_stopped t1 t2 env tabId w hrun]
    exact advances_of_stopped _ _ _ hrun
  | true =>
    rw [onActivated_running t1 t2 env tabId w hrun]
    exact flush_restamp_advances c t1 t2 w _ h h1 h2 rfl rfl rfl rfl

theorem getSessionState_advances (c t1 t2 t3 : Int) (env : Chrome) (w : World)
    (h : AwayInv c w.sessionState) (h1 : c ≤ t1) (h2 : t1 ≤ t2) (h3 : t2 ≤ t3) :
    Advances t3 w.sessionState
      (handleMessage t1 t2 t3 env Message.getSessionState w).sessionState := by
  cases hrun : w.sessionState.isRunning with
  | false =>
    rw [getSessionState_stopped t1 t2 t3 env w hrun]
    exact advances_of_stopped _ _ _ hrun
  | true =>
    rw [getSessionState_sessionState t1 t2 t3 env w hrun]
    obtain ⟨hi, hm⟩ := flush_restamp_advances c t1 t2 w
      { (updateTime t1 w).sessionState with lastTickMs := some t2 } h h1 h2 rfl rfl rfl rfl
    refine ⟨fun hr => ?_, hm⟩
    obtain ⟨st, lt, e1, e2, b1, b2, b3⟩ := hi hr
    exact ⟨st, lt, e1, e2, b1, b2, le_trans b3 h3⟩

theorem onUpdated_advances (c : Int) (env : Chrome) (tabId : TabId) (changeInfo : ChangeInfo)
    (w : World) (h : AwayInv c w.sessionState) :
    Advances c w.sessionState (onUpdated env tabId changeInfo w).sessionState := by
  obtain ⟨pu, pd, pt, ad, st, r, e⟩ := onUpdated_frame env tabId changeInfo w
  rw [e]
  exact advances_of_same c c _ _ h (le_refl _) rfl rfl rfl rfl

/-- The time fields after the listener of `chrome.tabs.onRemoved` in a running
session: `lastTickMs` is the second clock reading, and `awayTimeMs` is either
untouched or the result of one flush at the first reading of a world `v` that
has the time fields of `w`. -/
theorem onRemoved_time (t1 t2 : Int) (tabId : TabId) (w : World)
    (hrun : w.sessionState.isRunning = true) :
    ∃ v : World,
      v.sessionState.isRunning = w.sessionState.isRunning ∧
      v.sessionState.startTimeMs = w.sessionState.startTimeMs ∧
      v.sessionState.lastTickMs = w.sessionState.lastTickMs ∧
      v.sessionState.awayTimeMs = w.sessionState.awayTimeMs ∧
      ((onRemoved t1 t2 tabId w).sessionState.awayTimeMs = w.sessionState.awayTimeMs ∨
        (onRemoved t1 t2 tabId w).sessionState.awayTimeMs =
          (updateTime t1 v).sessionState.awayTimeMs) ∧
      (onRemoved t1 t2 tabId w).sessionState.lastTickMs = some t2 := by
  cases c1 : arrayIncludes w.sessionState.allowedTabIds (some tabId)
  · refine ⟨w, rfl, rfl, rfl, rfl, ?_, ?_⟩ <;>
      by_cases c2 : w.sessionState.primaryTabId = some tabId <;>
      by_cases c3 : w.sessionState.activeTabId = some tabId <;>
      simp [onRemoved, saveSessionState, c1, c2, c3, hrun, updateTime_isRunning,
        updateTime_activeTabId]
  · refine ⟨{ w with sessionState :=
        { w.sessionState with
          allowedTabIds :=
            w.sessionState.allowedTabIds.filter (fun id => decide (id ≠ tabId)) } },
      rfl, rfl, rfl, rfl, ?_, ?_⟩ <;>
      by_cases c2 : w.sessionState.primaryTabId = some tabId <;>
      by_cases c3 : w.sessionState.activeTabId = some tabId <;>
      simp [onRemoved, saveSessionState, c1, c2, c3, hrun, updateTime_isRunning,
        updateTime_activeTabId]

theorem onRemoved_advances (c t1 t2 : Int) (tabId : TabId) (w : World)
    (h : AwayInv c w.sessionState) (h1 : c ≤ t1) (h2 : t1 ≤ t2) :
    Advances t2 w.sessionState (onRemoved t1 t2 tabId w).sessionState := by
  obtain ⟨f1, f2, _⟩ := onRemoved_frame t1 t2 tabId w
  cases hrun : w.sessionState.isRunning with
  | false => exact advances_of_stopped _ _ _ (f1.trans hrun)
  | true =>
    obtain ⟨st, lt, e1, e2, b1, b2, b3⟩ := h hrun
    obtain ⟨v, v1, v2, v3, v4, haway, hl⟩ := onRemoved_time t1 t2 tabId w hrun
    have hv : AwayInv c v.sessionState := (advances_of_same c c _ _ h (le_refl _) v1 v2 v3 v4).1
    obtain ⟨hu, hmono⟩ := updateTime_advance c t1 v hv h1
    obtain ⟨st', lt', u1, u2, a1, a2, a3⟩ :=
      hu ((updateTime_isRunning t1 v).trans (v1.trans hrun))
    have hst : st' = st := by
      rw [updateTime_startTimeMs, v2, e1] at u1
      exact (Option.some.inj u1).symm
    subst hst
    rcases haway with ha | ha
    · refine ⟨fun _ => ⟨st', t2, by rw [f2, e1], hl, ?_, ?_, le_refl _⟩, fun _ _ => ?_⟩
      · rw [ha]; exact b1
      · rw [ha]; linarith
      · rw [ha]
    · refine ⟨fun _ => ⟨st', t2, by rw [f2, e1], hl, ?_, ?_, le_refl _⟩, fun _ _ => ?_⟩
      · rw [ha]; exact a1
      · rw [ha]; linarith
      · rw [ha, ← v4]; exact hmono

theorem startSession_advances (c t1 t3 : Int) (env : Chrome) (w : World)
    (h : AwayInv c w.sessionState) (h1 : c ≤ t1) (h3 : t1 ≤ t3) :
    Advances t3 w.sessionState (startSession t1 env w).sessionState := by
  cases hrun : w.sessionState.isRunning with
  | true =>
    rw [startSession_running t1 env w hrun]
    exact advances_of_same c t3 _ _ h (le_trans h1 h3) rfl rfl rfl rfl
  | false =>
    rw [startSession_stopped t1 env w hrun]
    refine ⟨fun _ => ⟨t1, t1, rfl, rfl, le_refl _, ?_, h3⟩, fun hr _ => ?_⟩
    · show (0 : Int) ≤ t1 - t1
      linarith
    · rw [hrun] at hr; cases hr

theorem stopSession_advances (c t1 t2 t3 : Int) (w : World) :
    Advances c w.sessionState (stopSession t1 t2 t3 w).sessionState := by
  cases hrun : w.sessionState.isRunning with
  | false =>
    rw [stopSession_stopped t1 t2 t3 w hrun]
    exact advances_of_stopped _ _ _ hrun
  | true =>
    rw [stopSession_running t1 t2 t3 w hrun]
    exact advances_of_stopped _ _ _ rfl

theorem setPrimaryToCurrentTab_advances (c c' : Int) (env : Chrome) (w : World)
    (h : AwayInv c w.sessionState) (hc : c ≤ c') :
    Advances c' w.sessionState (setPrimaryToCurrentTab env w).sessionState := by
  unfold setPrimaryToCurrentTab
  split
  · exact advances_of_same c c' _ _ h hc rfl rfl rfl rfl
  · dsimp only [saveSessionState]
    split <;> exact advances_of_same c c' _ _ h hc rfl rfl rfl rfl

theorem handleMessage_advances (c t1 t2 t3 : Int) (env : Chrome) (m : Message) (w : World)
    (h : AwayInv c w.sessionState) (h1 : c ≤ t1) (h2 : t1 ≤ t2) (h3 : t2 ≤ t3) :
    Advances t3 w.sessionState (handleMessage t1 t2 t3 env m w).sessionState := by
  have hc : c ≤ t3 := le_trans h1 (le_trans h2 h3)
  cases m with
  | setPrimaryToCurrentTab => exact setPrimaryToCurrentTab_advances c t3 env w h hc
  | startSession => exact startSession_advances c t1 t3 env w h h1 (le_trans h2 h3)
  | stopSession => exact stopSession_advances t3 t1 t2 t3 w
  | getSessionState => exact getSessionState_advances c t1 t2 t3 env w h h1 h2 h3
  | setLockEnabled enabled => exact advances_of_same c t3 _ _ h hc rfl rfl rfl rfl
  | addAllowedTab tabId =>
    simp only [handleMessage, addAllowedTab, saveSessionState]
    split <;> exact advances_of_same c t3 _ _ h hc rfl rfl rfl rfl
  | removeAllowedTab tabId => exact advances_of_same c t3 _ _ h hc rfl rfl rfl rfl
  | addAllowedDomain domain =>
    simp only [handleMessage, addAllowedDomain, saveSessionState]
    split <;> exact advances_of_same c t3 _ _ h hc rfl rfl rfl rfl
  | removeAllowedDomain domain => exact advances_of_same c t3 _ _ h hc rfl rfl rfl rfl
  | isLockedPage => exact advances_of_same c t3 _ _ h hc rfl rfl rfl rfl
  | unknown action => exact advances_of_same c t3 _ _ h hc rfl rfl rfl rfl

theorem TimedStep_advances (c c' : Int) (w v : World) (hs : TimedStep c w c' v)
    (h : AwayInv c w.sessionState) : Advances c' w.sessionState v.sessionState := by
  cases hs with
  | message t1 t2 _ env m _ h1 h2 h3 =>
    exact handleMessage_advances c t1 t2 c' env m w h h1 h2 h3
  | activated t1 _ env tabId _ h1 h2 => exact onActivated_advances c t1 c' env tabId w h h1 h2
  | updated env tabId changeInfo _ => exact onUpdated_advances c env tabId changeInfo w h
  | removed t1 _ tabId _ h1 h2 => exact onRemoved_advances c t1 c' tabId w h h1 h2
  | focusChanged t1 _ windowId _ h1 h2 =>
    exact onFocusChanged_advances c t1 c' windowId w h h1 h2
  | stateChanged t1 _ newState _ h1 h2 =>
    exact onStateChanged_advances c t1 c' newState w h h1 h2
  | tick _ _ h1 => exact onTick_advances c c' w h h1

theorem TimedReachable_inv (c : Int) (w : World) (h : TimedReachable c w) :
    AwayInv c w.sessionState := by
  induction h with
  | start t0 env w0 h0 =>
    rw [startSession_stopped t0 env w0 h0]
    refine fun _ => ⟨t0, t0, rfl, rfl, le_refl _, ?_, le_refl _⟩
    show (0 : Int) ≤ t0 - t0
    linarith
  | step c c' w v _ hs ih => exact (TimedStep_advances c c' w v hs ih).1

/-- C22. Away time is bounded by elapsed time under a monotone clock. In every
world reachable from a `startSession` at `t0` on a stopped world by commands,
environment events and ticks whose clock readings never decrease: while the
session runs, `startTimeMs` and `lastTickMs` are numbers and
`0 ≤ awayTimeMs ≤ lastTickMs - startTimeMs`; a further such transition that
leaves the session running does not decrease `awayTimeMs`; and a `stopSession`
at later readings stores a summary with
`focusedTimeMs + awayTimeMs = durationMs`. -/
theorem away_bounded_by_elapsed (c : Int) (w : World) (h : TimedReachable c w) :
    (w.sessionState.isRunning = true →
      ∃ st lt : Int, w.sessionState.startTimeMs = some st ∧
        w.sessionState.lastTickMs = some lt ∧
        0 ≤ w.sessionState.awayTimeMs ∧ w.sessionState.awayTimeMs ≤ lt - st) ∧
    (∀ (c' : Int) (v : World), TimedStep c w c' v →
      w.sessionState.isRunning = true → v.sessionState.isRunning = true →
      w.sessionState.awayTimeMs ≤ v.sessionState.awayTimeMs) ∧
    (∀ t1 t2 t3 : Int, c ≤ t1 → t1 ≤ t2 → t2 ≤ t3 →
      w.sessionState.isRunning = true →
      ∃ sm : SessionSummary,
        (stopSession t1 t2 t3 w).sessionState.lastSessionSummary = some sm ∧
        sm.focusedTimeMs + sm.awayTimeMs = sm.durationMs) := by
  have hinv := TimedReachable_inv c w h
  refine ⟨fun hrun => ?_, fun c' v hs => (TimedStep_advances c c' w v hs hinv).2, ?_⟩
  · obtain ⟨st, lt, e1, e2, b1, b2, _⟩ := hinv hrun
    exact ⟨st, lt, e1, e2, b1, b2⟩
  · intro t1 t2 t3 h1 h2 _ hrun
    obtain ⟨hu, _⟩ := updateTime_advance c t1 w hinv h1
    obtain ⟨st, lt, e1, e2, b1, b2, b3⟩ := hu ((updateTime_isRunning t1 w).trans hrun)
    refine ⟨summaryOf t2 t3 (updateTime t1 w).sessionState, ?_, ?_⟩
    · rw [stopSession_running t1 t2 t3 w hrun]
    · simp only [summaryOf, e1, toNumber]
      rw [max_eq_right (by linarith)]
      ring

/-- Witness for C22: a session started at `1000` on the allowed tab `7`, blurred
at `3000` and ticked at `5000` runs with `2000` ms away, within the `4000` ms
elapsed, and stopping it at `9000` stores a summary whose focused and away
times add up to the duration. -/
theorem away_bounded_by_elapsed_witness :
    (onTick 5000
      (onFocusChanged 3000 3000 WINDOW_ID_NONE
        (startSession 1000 exampleChrome
          (addAllowedTab 7 initialWorld)))).sessionState.awayTimeMs = 2000 ∧
    ∃ sm : SessionSummary,
      (stopSession 9000 9000 9000
        (onTick 5000
          (onFocusChanged 3000 3000 WINDOW_ID_NONE
            (startSession 1000 exampleChrome
              (addAllowedTab 7 initialWorld))))).sessionState.lastSessionSummary = some sm ∧
      sm.focusedTimeMs + sm.awayTimeMs = sm.durationMs :=
  ⟨by decide,
    (away_bounded_by_elapsed 5000 _
      (TimedReachable.step 3000 5000 _ _
        (TimedReachable.step 1000 3000 _ _
          (TimedReachable.start 1000 exampleChrome (addAllowedTab 7 initialWorld) (by decide))
          (TimedStep.focusChanged 1000 3000 3000 WINDOW_ID_NONE _ (by decide) (by decide)))
        (TimedStep.tick 3000 5000 _ (by decide)))).2.2
      9000 9000 9000 (by decide) (by decide) (by decide) (by decide)⟩

end FocusCostTracker

/-! ## Handlers interleaved at an `await` -/

namespace FocusCostTracker

/-- The two segments of `stopSession`, run back to back, are `stopSession`. -/
theorem stopSession_segments (t1 t2 t3 : Int) (w : World) :
    (w.sessionState.isRunning = true →
      stopSessionResume t2 t3 (stopSessionBegin t1 w) = stopSession t1 t2 t3 w) ∧
    (w.sessionState.isRunning = false →
      stopSessionBegin t1 w = stopSession t1 t2 t3 w) := by
  refine ⟨fun hrun => ?_, fun hrun => ?_⟩
  · simp [stopSessionResume, stopSessionBegin, stopSession, hrun]
  · simp [stopSessionBegin, stopSession, hrun]

/-- The two segments of the `getSessionState` case, run back to back, are the
state change of that case. -/
theorem getSessionState_segments (t1 t2 t3 : Int) (env : Chrome) (w : World) :
    (w.sessionState.isRunning = true →
      getSessionStateResume t2 (getSessionStateBegin t1 w) =
        handleMessage t1 t2 t3 env Message.getSessionState w) ∧
    (w.sessionState.isRunning = false →
      getSessionStateBegin t1 w = handleMessage t1 t2 t3 env Message.getSessionState w) := by
  refine ⟨fun hrun => ?_, fun hrun => ?_⟩
  · simp [getSessionStateResume, getSessionStateBegin, handleMessage, hrun]
  · simp [getSessionStateBegin, handleMessage, hrun]

/-- C7, evaluated on the code. From the initial world, `addAllowedTab(7)` and
`startSession` at `1000` give a running session. `stopSession` then starts at
`9000` and is suspended in `await updateTime()` with `isRunning` still true; a
`getSessionState` dispatched at `9001` passes its guard and is suspended in its
own `await updateTime()`; `stopSession` resumes at `9002` and clears the
session; `getSessionState` resumes at `9003` and stamps `lastTickMs` without
reading `isRunning` again. The resulting state, which is also the one
persisted, has `isRunning == false` and `lastTickMs == 9003`. -/
theorem stopSession_getSessionState_race :
    Reachable startedWorld ∧
    startedWorld.sessionState.isRunning = true ∧
    (stopSessionBegin 9000 startedWorld).sessionState.isRunning = true ∧
    (stopSessionResume 9002 9002
      (getSessionStateBegin 9001
        (stopSessionBegin 9000 startedWorld))).sessionState.isRunning = false ∧
    racedWorld.sessionState.isRunning = false ∧
    racedWorld.sessionState.lastTickMs = some 9003 ∧
    racedWorld.storage = some racedWorld.sessionState := by
  refine ⟨?_, by decide, by decide, by decide, by decide, by decide, by decide⟩
  exact Reachable.step _ _
    (Reachable.step _ _ (Reachable.init initialWorld rfl)
      (Step.message 0 0 0 exampleChrome (Message.addAllowedTab 7) initialWorld))
    (Step.message 1000 1000 1000 exampleChrome Message.startSession _)

/-- The two segments of the listener of `chrome.windows.onFocusChanged`, run
back to back, are the listener. -/
theorem onFocusChanged_segments (t1 t2 : Int) (windowId : Int) (w : World) :
    onFocusChangedResume t2 windowId (onFocusChangedBegin t1 w) =
      onFocusChanged t1 t2 windowId w := by
  cases hrun : w.sessionState.isRunning <;>
    simp [onFocusChangedResume, onFocusChangedBegin, onFocusChanged, hrun]

/-- The same schedule with a window focus change in the place of
`getSessionState`: the listener reads `isRunning` again before it stamps
`lastTickMs`, finds the session stopped and leaves `lastTickMs == null`. -/
theorem stopSession_onFocusChanged_interleaved :
    (onFocusChangedResume 9003 WINDOW_ID_NONE
      (stopSessionResume 9002 9002
        (onFocusChangedBegin 9001
          (stopSessionBegin 9000 startedWorld)))).sessionState.isRunning = false ∧
    (onFocusChangedResume 9003 WINDOW_ID_NONE
      (stopSessionResume 9002 9002
        (onFocusChangedBegin 9001
          (stopSessionBegin 9000 startedWorld)))).sessionState.lastTickMs = none := by
  decide

/-- The global `previousWasAllowed` is written by `startSession` and
`loadSessionState` and read nowhere: after a start on the allowed tab `7` it is
`true`; once `removeAllowedTab(7)` has run, the activation of the disallowed
tab `9` compares `isTabAllowed` of the previous tab under the current
allow-lists (false) with that of the new tab (false) and counts no switch. -/
theorem previousWasAllowed_not_read :
    (removeAllowedTab 7 startedWorld).previousWasAllowed = true ∧
    (removeAllowedTab 7 startedWorld).sessionState.switchCount = 0 ∧
    (onActivated 5000 5000 exampleChrome 9
      (removeAllowedTab 7 startedWorld)).sessionState.switchCount = 0 := by
  decide

end FocusCostTracker
